import Mathlib

/-!
Shallow embedding of the world-simulation core of project-drifter
(src/systems/WorldSystem.ts, src/entities/PlayerEntity.ts,
src/systems/ProjectileSystem.ts + InputSystem.ts in src/unnamed/part_000,
src/utils/gameUtils.ts, and the duplicate WorldSystem in
src/systems/EquipmentSystem.ts).

Conventions of the embedding:
* JS numbers are modelled as exact rationals (ℚ).
* `Math.sin` is transcendental, so the hash
  `pseudoRandom(x,y) = frac(sin(x*12.9898 + y*78.233) * 43758.5453)`
  is abstracted as a parameter `prand : ℤ → ℤ → ℚ`; `frac` guarantees the
  real hash lands in [0,1), which theorems take as a hypothesis where needed.
  (`pseudoRandom` is only ever applied to the integer lattice points produced
  by `Math.floor` inside `noise`, hence the ℤ arguments.)
* `Math.sqrt` appears in `dist = Math.sqrt(wx*wx + wy*wy)` only inside the
  comparisons `dist > limit`, `dist > limit + 10`, `dist < 10`.  Those are
  translated to the equivalent squared comparisons (`sqrtGT`, `sqrtLT` below):
  for s ≥ 0, `Real.sqrt s > b ↔ b < 0 ∨ b^2 < s` and
  `Real.sqrt s < b ↔ 0 < b ∧ s < b^2`.  `Math.sqrt` in `Vec2.mag` /
  `Vec2.normalize` is kept abstract as a parameter `jsSqrt : ℚ → ℚ`.
* `Math.cos`, `Math.sin`, `Math.atan2` are abstract parameters.
* The JS `%` operator on numbers is truncated remainder (`jsMod` below).
* `Math.PI` is the IEEE-754 double closest to π, whose exact rational value
  is 884279719003555 / 2^48 (`jsPI` below).
-/

/-- JS `Math.trunc`-style rounding toward zero of a rational (used by the
semantics of the JS `%` operator). -/
def ratTrunc (q : ℚ) : ℤ := if 0 ≤ q then ⌊q⌋ else ⌈q⌉

/-- The JS `%` operator on numbers: truncated remainder
`a % n = a - n * trunc(a / n)` (sign follows the dividend). -/
def jsMod (a n : ℚ) : ℚ := a - n * (ratTrunc (a / n) : ℚ)

/-- `sqrt s > b` for `s ≥ 0`, expressed without square roots:
`Real.sqrt s > b ↔ b < 0 ∨ b^2 < s`.  Used to translate the comparisons of
`dist = Math.sqrt(wx*wx + wy*wy)` in `WorldSystem.generateChunk`. -/
def sqrtGT (s b : ℚ) : Bool := decide (b < 0) || decide (b * b < s)

/-- `sqrt s < b` for `s ≥ 0`, expressed without square roots:
`Real.sqrt s < b ↔ 0 < b ∧ s < b^2`. -/
def sqrtLT (s b : ℚ) : Bool := decide (0 < b) && decide (s < b * b)

/-- gameUtils.ts `TileType` enum. -/
inductive TileType where
  | Grass
  | Wall
  | Water
  | Bedrock
  | Road
  | Forest
  | DeepForest
  | Cliff
  | DeepWater
  | Sand
deriving DecidableEq, Repr

/-- gameUtils.ts `TileDef` static attributes (display-only fields omitted:
they never feed back into the simulation). -/
structure TileDef where
  passable : Bool
  speedCost : ℚ
deriving DecidableEq, Repr

/-- gameUtils.ts `TILE_DEFS` record. -/
def TILE_DEFS : TileType → TileDef
  | .Grass      => { passable := true,  speedCost := 1 }
  | .Wall       => { passable := false, speedCost := 0 }
  | .Water      => { passable := false, speedCost := 0 }
  | .Bedrock    => { passable := false, speedCost := 0 }
  | .Road       => { passable := true,  speedCost := 4/5 }
  | .Forest     => { passable := true,  speedCost := 6/5 }
  | .DeepForest => { passable := false, speedCost := 0 }
  | .Cliff      => { passable := false, speedCost := 0 }
  | .DeepWater  => { passable := false, speedCost := 0 }
  | .Sand       => { passable := true,  speedCost := 11/10 }

/-- GAME_CONFIG.tileSize. -/
def tileSize : ℚ := 64

/-- GAME_CONFIG.chunkSize. -/
def chunkSize : ℤ := 16

/-- GAME_CONFIG.worldRadiusChunks. -/
def worldRadiusChunks : ℤ := 6

/-- WorldSystem.lerp. -/
def lerp (a b t : ℚ) : ℚ := a + (b - a) * t

/-- WorldSystem.noise, parametrized by the `pseudoRandom` hash `prand`
(see the header comment).  Mirrors the source line by line:
floor both coordinates, hash the four surrounding lattice points, and
bilinearly interpolate with smoothstep easing. -/
def noise (prand : ℤ → ℤ → ℚ) (x y : ℚ) : ℚ :=
  let ix := ⌊x⌋
  let iy := ⌊y⌋
  let fx := x - (ix : ℚ)
  let fy := y - (iy : ℚ)
  let a := prand ix iy
  let b := prand (ix + 1) iy
  let c := prand ix (iy + 1)
  let d := prand (ix + 1) (iy + 1)
  let ux := fx * fx * (3 - 2 * fx)
  let uy := fy * fy * (3 - 2 * fy)
  lerp (lerp a b ux) (lerp c d ux) uy

/-- `boundaryStart` of WorldSystem.generateChunk:
`worldRadiusChunks * chunkSize - 8 = 88`. -/
def boundaryStart : ℚ := (worldRadiusChunks * chunkSize : ℤ) - 8

/-- The `limit = boundaryStart + noise(wx*0.05, wy*0.05) * 15` of the
boundary logic in WorldSystem.generateChunk. -/
def boundaryLimit (prand : ℤ → ℤ → ℚ) (wx wy : ℤ) : ℚ :=
  boundaryStart + noise prand (wx * (1/20)) (wy * (1/20)) * 15

/-- Squared distance from the origin of a world tile; `dist` in the source is
`Math.sqrt(wx*wx + wy*wy)` and is only ever compared (see `sqrtGT`/`sqrtLT`). -/
def distSq (wx wy : ℤ) : ℚ := ((wx * wx + wy * wy : ℤ) : ℚ)

/-- The road test of WorldSystem.generateChunk:
`roadWarp = noise(wx*0.03, wy*0.03) * 20`, `isRoad` iff
`|(wy + roadWarp) % 50| < 2` or `|(wx + roadWarp) % 50| < 2`. -/
def isRoadAt (prand : ℤ → ℤ → ℚ) (wx wy : ℤ) : Bool :=
  let roadWarp := noise prand (wx * (3/100)) (wy * (3/100)) * 20
  let roadSpacing : ℚ := 50
  let distToHRoad := |jsMod ((wy : ℚ) + roadWarp) roadSpacing|
  let distToVRoad := |jsMod ((wx : ℚ) + roadWarp) roadSpacing|
  decide (distToHRoad < 2) || decide (distToVRoad < 2)

/-- The biome noise of WorldSystem.generateChunk:
`0.8 * noise(wx*0.05, wy*0.05) + 0.2 * noise(wx*0.15+100, wy*0.15+100)`. -/
def biomeVal (prand : ℤ → ℤ → ℚ) (wx wy : ℤ) : ℚ :=
  let n1 := noise prand (wx * (1/20)) (wy * (1/20))
  let n2 := noise prand (wx * (3/20) + 100) (wy * (3/20) + 100)
  n1 * (4/5) + n2 * (1/5)

/-- Per-tile classification in the loop body of
`WorldSystem.generateChunk` (src/systems/WorldSystem.ts, lines 40-91), at
world tile coordinates `(wx, wy) = (cx*chunkSize + x, cy*chunkSize + y)`:
boundary test first (Bedrock / Cliff with `continue`), then road test,
then the `dist < 10` safe-spawn override of the biome value, then the
ordered biome thresholds. -/
def classifyTile (prand : ℤ → ℤ → ℚ) (wx wy : ℤ) : TileType :=
  let limit := boundaryLimit prand wx wy
  if sqrtGT (distSq wx wy) limit then
    if sqrtGT (distSq wx wy) (limit + 10) then .Bedrock else .Cliff
  else
    if isRoadAt prand wx wy then .Road
    else if sqrtLT (distSq wx wy) 10 then .Grass
    else
      let noiseVal := biomeVal prand wx wy
      if noiseVal < 1/4 then .Water
      else if noiseVal < 3/10 then .Sand
      else if noiseVal < 3/5 then .Grass
      else if noiseVal < 3/4 then .Forest
      else if noiseVal < 17/20 then .DeepForest
      else .Wall

/-- WorldSystem.generateChunk (src/systems/WorldSystem.ts): row-major grid,
row index `y`, column index `x`, each entry classified at
`(wx, wy) = (cx*16 + x, cy*16 + y)`. -/
def generateChunk (prand : ℤ → ℤ → ℚ) (cx cy : ℤ) : List (List TileType) :=
  (List.range 16).map fun y =>
    (List.range 16).map fun x =>
      classifyTile prand (cx * 16 + Int.ofNat x) (cy * 16 + Int.ofNat y)

/-- Per-tile classification of the duplicate `WorldSystem.generateChunk`
kept in src/systems/EquipmentSystem.ts (the render-cache-free copy).
Identical to `classifyTile` except in the `noiseVal < 0.3` biome band,
which pushes Grass (commented "Shore/Sand equivalent") where the primary
implementation pushes Sand. -/
def classifyTileB (prand : ℤ → ℤ → ℚ) (wx wy : ℤ) : TileType :=
  let limit := boundaryLimit prand wx wy
  if sqrtGT (distSq wx wy) limit then
    if sqrtGT (distSq wx wy) (limit + 10) then .Bedrock else .Cliff
  else
    if isRoadAt prand wx wy then .Road
    else if sqrtLT (distSq wx wy) 10 then .Grass
    else
      let noiseVal := biomeVal prand wx wy
      if noiseVal < 1/4 then .Water
      else if noiseVal < 3/10 then .Grass
      else if noiseVal < 3/5 then .Grass
      else if noiseVal < 3/4 then .Forest
      else if noiseVal < 17/20 then .DeepForest
      else .Wall

/-- The duplicate `generateChunk` of the second WorldSystem
(src/systems/EquipmentSystem.ts). -/
def generateChunkB (prand : ℤ → ℤ → ℚ) (cx cy : ℤ) : List (List TileType) :=
  (List.range 16).map fun y =>
    (List.range 16).map fun x =>
      classifyTileB prand (cx * 16 + Int.ofNat x) (cy * 16 + Int.ofNat y)

/-- `tx = Math.floor(worldX / tileSize)` of WorldSystem.getTileAt. -/
def worldToTile (w : ℚ) : ℤ := ⌊w / tileSize⌋

/-- `cx = Math.floor(tx / chunkSize)` of WorldSystem.getTileAt (JS float
division of integers followed by floor = floor division). -/
def tileToChunk (t : ℤ) : ℤ := ⌊(t : ℚ) / (chunkSize : ℚ)⌋

/-- `let lx = tx % cs; if (lx < 0) lx += cs` of WorldSystem.getTileAt
(JS `%` on integers is truncated remainder, `Int.tmod`). -/
def tileToLocal (t : ℤ) : ℤ :=
  let l := Int.tmod t chunkSize
  if l < 0 then l + chunkSize else l

/-- WorldSystem.getTileAt: resolve world coordinates to a chunk and a local
index, generate (the cache is behaviorally transparent: `getChunk` memoizes
the pure `generateChunk`) and index `chunk[ly][lx]`.  The local indices are
proven in range (`tileToLocal_nonneg`, `tileToLocal_lt`), so the `getD`
defaults are never hit. -/
def getTileAt (prand : ℤ → ℤ → ℚ) (worldX worldY : ℚ) : TileType :=
  let tx := worldToTile worldX
  let ty := worldToTile worldY
  let cx := tileToChunk tx
  let cy := tileToChunk ty
  let lx := tileToLocal tx
  let ly := tileToLocal ty
  (((generateChunk prand cx cy).getD ly.toNat []).getD lx.toNat .Grass)

/-- WorldSystem.isPassable. -/
def isPassable (prand : ℤ → ℤ → ℚ) (worldX worldY : ℚ) : Bool :=
  (TILE_DEFS (getTileAt prand worldX worldY)).passable

/-- The inclusive integer range `[a, b]` traversed by the
`for (let i = a; i <= b; i++)` loops of WorldSystem.checkCollision. -/
def intRangeIncl (a b : ℤ) : List ℤ :=
  (List.range (b - a + 1).toNat).map fun i => a + Int.ofNat i

/-- A world-space rectangle (gameUtils.ts `Rect`). -/
structure RectQ where
  x : ℚ
  y : ℚ
  width : ℚ
  height : ℚ

/-- WorldSystem.checkCollision: cover the rectangle with the inclusive tile
range and return true as soon as the tile sampled at any covered tile's
center is impassable. -/
def checkCollision (prand : ℤ → ℤ → ℚ) (rect : RectQ) : Bool :=
  let startX := ⌊rect.x / tileSize⌋
  let endX := ⌊(rect.x + rect.width) / tileSize⌋
  let startY := ⌊rect.y / tileSize⌋
  let endY := ⌊(rect.y + rect.height) / tileSize⌋
  (intRangeIncl startY endY).any fun y =>
    (intRangeIncl startX endX).any fun x =>
      !(TILE_DEFS (getTileAt prand ((x : ℚ) * tileSize + tileSize / 2)
          ((y : ℚ) * tileSize + tileSize / 2))).passable

/-- gameUtils.ts `Vector2D`. -/
structure Vec2Q where
  x : ℚ
  y : ℚ
deriving DecidableEq, Repr

/-- Vec2.zero. -/
def vecZero : Vec2Q := ⟨0, 0⟩

/-- Vec2.scale. -/
def vecScale (v : Vec2Q) (s : ℚ) : Vec2Q := ⟨v.x * s, v.y * s⟩

/-- Vec2.mag, `Math.sqrt(v.x*v.x + v.y*v.y)`, with the abstract `jsSqrt`. -/
def vecMag (jsSqrt : ℚ → ℚ) (v : Vec2Q) : ℚ := jsSqrt (v.x * v.x + v.y * v.y)

/-- Vec2.normalize: returns the zero vector when the magnitude is zero,
otherwise divides both components by the magnitude. -/
def vecNormalize (jsSqrt : ℚ → ℚ) (v : Vec2Q) : Vec2Q :=
  let m := jsSqrt (v.x * v.x + v.y * v.y)
  if m = 0 then ⟨0, 0⟩ else ⟨v.x / m, v.y / m⟩

/-- The InputSystem key flags read by the simulation core (InputSystem.keys;
the UI-only flags tab/escape/num1-4 never reach the core and are omitted). -/
structure InputKeys where
  w : Bool
  a : Bool
  s : Bool
  d : Bool
  shift : Bool
  space : Bool
  mouseDown : Bool
deriving DecidableEq, Repr

/-- The raw key-direction sum of InputSystem.getMovementVector
(w: y-1, s: y+1, a: x-1, d: x+1), before normalization. -/
def rawMove (k : InputKeys) : Vec2Q :=
  ⟨(if k.a then (-1 : ℚ) else 0) + (if k.d then 1 else 0),
   (if k.w then (-1 : ℚ) else 0) + (if k.s then 1 else 0)⟩

/-- InputSystem.getMovementVector: sum the four direction keys and
normalize. -/
def getMovementVector (jsSqrt : ℚ → ℚ) (k : InputKeys) : Vec2Q :=
  vecNormalize jsSqrt (rawMove k)

/-- MouseState world coordinates (MouseSystem.state). -/
structure MouseStateQ where
  worldX : ℚ
  worldY : ℚ
deriving DecidableEq, Repr

/-- The mutable per-frame fields of PlayerEntity. -/
structure PlayerState where
  pos : Vec2Q
  velocity : Vec2Q
  rotation : ℚ
  targetRotation : ℚ
  fireTimer : ℚ
  isDashing : Bool
  dashTimer : ℚ
  dashCharges : ℚ
  dashRechargeTimer : ℚ
  dashDebounceTimer : ℚ
deriving DecidableEq, Repr

/-- PlayerEntity.size. -/
def playerSize : ℚ := 32

/-- PlayerEntity.rotationSpeed. -/
def rotationSpeed : ℚ := 12

/-- PlayerEntity.baseSpeed. -/
def baseSpeed : ℚ := 300

/-- PlayerEntity.sprintMultiplier (1.6). -/
def sprintMultiplier : ℚ := 8/5

/-- PlayerEntity.dashSpeed. -/
def dashSpeed : ℚ := 900

/-- PlayerEntity.dashDuration (0.2). -/
def dashDuration : ℚ := 1/5

/-- PlayerEntity.maxDashCharges. -/
def maxDashCharges : ℚ := 2

/-- PlayerEntity.dashRechargeTime (1.5). -/
def dashRechargeTime : ℚ := 3/2

/-- PlayerEntity.fireRate (0.12). -/
def fireRate : ℚ := 3/25

/-- PlayerEntity.muzzleOffset. -/
def muzzleOffset : ℚ := 28

/-- `Math.PI`: the IEEE-754 double closest to π, exactly
884279719003555 / 2^48 = 3.141592653589793115997963… -/
def jsPI : ℚ := 884279719003555 / 281474976710656

/-- The two wrap loops of PlayerEntity.update
(`while (angleDiff <= -Math.PI) angleDiff += Math.PI * 2;
while (angleDiff > Math.PI) angleDiff -= Math.PI * 2;`): both loops shift by
2·Math.PI, so together they compute the unique representative of `a` modulo
`2 * jsPI` lying in `(-jsPI, jsPI]`, here in closed form
(`wrapAngle_mem` below re-derives the interval, `wrapAngle_modEq` the shift). -/
def wrapAngle (a : ℚ) : ℚ := a - (2 * jsPI) * ((⌈a / (2 * jsPI) - 1/2⌉ : ℤ) : ℚ)

/-- `if (this.fireTimer > 0) this.fireTimer -= dt` of PlayerEntity.update. -/
def fireTimerDec (p : PlayerState) (dt : ℚ) : ℚ :=
  if p.fireTimer > 0 then p.fireTimer - dt else p.fireTimer

/-- The firing condition of PlayerEntity.update:
`input.keys.mouseDown && this.fireTimer <= 0` evaluated after the fireTimer
decrement (a true result triggers `shoot`). -/
def shotFired (p : PlayerState) (keys : InputKeys) (dt : ℚ) : Bool :=
  keys.mouseDown && decide (fireTimerDec p dt ≤ 0)

/-- The dash-charge regeneration block of PlayerEntity.update, returning the
new `(dashCharges, dashRechargeTimer)` pair. -/
def rechargeStep (charges timer dt : ℚ) : ℚ × ℚ :=
  if charges < maxDashCharges then
    let t := timer + dt
    if t ≥ dashRechargeTime then (charges + 1, 0) else (charges, t)
  else (charges, timer)

/-- `if (this.dashDebounceTimer > 0) this.dashDebounceTimer -= dt`. -/
def debounceDec (d dt : ℚ) : ℚ := if d > 0 then d - dt else d

/-- The dash-trigger condition of PlayerEntity.update: not currently dashing,
space held, a dash charge available and the debounce expired (both evaluated
after step 3 updated them), and a non-zero movement vector. -/
def dashStarted (jsSqrt : ℚ → ℚ) (p : PlayerState) (keys : InputKeys) (dt : ℚ) : Bool :=
  !p.isDashing && keys.space &&
    decide (0 < (rechargeStep p.dashCharges p.dashRechargeTimer dt).1) &&
    decide (debounceDec p.dashDebounceTimer dt ≤ 0) &&
    decide (0 < vecMag jsSqrt (getMovementVector jsSqrt keys))

/-- PlayerEntity.startDash. -/
def startDash (p : PlayerState) (dir : Vec2Q) : PlayerState :=
  let charges := p.dashCharges - 1
  { p with
    isDashing := true
    dashTimer := dashDuration
    dashCharges := charges
    dashDebounceTimer := 1/5
    velocity := vecScale dir dashSpeed
    dashRechargeTimer := if charges = maxDashCharges - 1 then 0 else p.dashRechargeTimer }

/-- PlayerEntity.getBounds: the size×size box centered on the position. -/
def getBounds (x y : ℚ) : RectQ :=
  ⟨x - playerSize / 2, y - playerSize / 2, playerSize, playerSize⟩

/-- Step 5 of PlayerEntity.update (sliding collision) plus the final
`this.velocity = desiredVelocity` commit: resolve the X axis first against
the world, then the Y axis from the (possibly updated) X position. -/
def resolveCollision (prand : ℤ → ℤ → ℚ) (p : PlayerState) (desired : Vec2Q)
    (dt : ℚ) : PlayerState :=
  let nextX := p.pos.x + desired.x * dt
  let rx := if checkCollision prand (getBounds nextX p.pos.y)
    then (p.pos.x, (0 : ℚ)) else (nextX, desired.x)
  let nextY := p.pos.y + desired.y * dt
  let ry := if checkCollision prand (getBounds rx.1 nextY)
    then (p.pos.y, (0 : ℚ)) else (nextY, desired.y)
  { p with pos := ⟨rx.1, ry.1⟩, velocity := ⟨rx.2, ry.2⟩ }

/-- The projectile spawn request `shoot` emits
(`projectileSystem.spawn(muzzleX, muzzleY, this.rotation)`). -/
structure SpawnRequest where
  x : ℚ
  y : ℚ
  angle : ℚ
deriving DecidableEq, Repr

/-- PlayerEntity.update (src/entities/PlayerEntity.ts lines 51-129), with the
abstract transcendental parameters of the header comment and the equipment
speed bonus passed as a number (`equipment.getTotalBonusStats().speed || 0`
is the identity on the total, which is always a number, 0 by default).
Returns the updated player and the spawn request `shoot` emitted, if any.
Step order mirrors the source: rotation, combat, dash charging, movement
selection (with the early `return` on dash start, which skips collision),
sliding collision. -/
def update (prand : ℤ → ℤ → ℚ) (jsSqrt jsCos jsSin : ℚ → ℚ)
    (atan2 : ℚ → ℚ → ℚ) (p : PlayerState) (dt : ℚ) (keys : InputKeys)
    (mouse : MouseStateQ) (bonusSpeed : ℚ) : PlayerState × Option SpawnRequest :=
  let dx := mouse.worldX - p.pos.x
  let dy := mouse.worldY - p.pos.y
  let target := atan2 dy dx
  let angleDiff := wrapAngle (target - p.rotation)
  let rotation := p.rotation + angleDiff * rotationSpeed * dt
  let shoot := shotFired p keys dt
  let spawnReq : Option SpawnRequest :=
    if shoot then
      some ⟨p.pos.x + jsCos rotation * muzzleOffset,
            p.pos.y + jsSin rotation * muzzleOffset, rotation⟩
    else none
  let fireT := if shoot then fireRate else fireTimerDec p dt
  let rc := rechargeStep p.dashCharges p.dashRechargeTimer dt
  let debounce := debounceDec p.dashDebounceTimer dt
  let pMid : PlayerState := { p with
    rotation := rotation, targetRotation := target, fireTimer := fireT,
    dashCharges := rc.1, dashRechargeTimer := rc.2, dashDebounceTimer := debounce }
  if p.isDashing then
    let dashT := p.dashTimer - dt
    let ended := decide (dashT ≤ 0)
    let desired := if ended then vecZero else p.velocity
    let pDash := { pMid with dashTimer := dashT, isDashing := !ended }
    (resolveCollision prand pDash desired dt, spawnReq)
  else if dashStarted jsSqrt p keys dt then
    (startDash pMid (getMovementVector jsSqrt keys), spawnReq)
  else
    let moveDir := getMovementVector jsSqrt keys
    let speed0 := baseSpeed + bonusSpeed
    let currentSpeed := if keys.shift then speed0 * sprintMultiplier else speed0
    (resolveCollision prand pMid (vecScale moveDir currentSpeed) dt, spawnReq)

/-- Iterated player updates with a fixed input/mouse/bonus, discarding spawn
requests (the per-frame loop of App.tsx restricted to the player). -/
def foldUpd (prand : ℤ → ℤ → ℚ) (jsSqrt jsCos jsSin : ℚ → ℚ)
    (atan2 : ℚ → ℚ → ℚ) (keys : InputKeys) (mouse : MouseStateQ)
    (bonusSpeed : ℚ) (p : PlayerState) (dts : List ℚ) : PlayerState :=
  dts.foldl (fun q dt => (update prand jsSqrt jsCos jsSin atan2 q dt keys mouse bonusSpeed).1) p

/-- ProjectileSystem's `Projectile` record. -/
structure Projectile where
  x : ℚ
  y : ℚ
  vx : ℚ
  vy : ℚ
  life : ℚ
  maxLife : ℚ
deriving DecidableEq, Repr

/-- ProjectileSystem.defaultSpeed. -/
def defaultSpeed : ℚ := 1500

/-- ProjectileSystem.defaultLife. -/
def defaultLife : ℚ := 2

/-- The JS expression `speedOverride || this.defaultSpeed`: `undefined`
(the argument omitted, `none` here) and `0` are both falsy, so both select
the default. -/
def jsOrDefault (v : Option ℚ) (dflt : ℚ) : ℚ :=
  match v with
  | none => dflt
  | some s => if s = 0 then dflt else s

/-- The projectile built by ProjectileSystem.spawn. -/
def mkProjectile (jsCos jsSin : ℚ → ℚ) (x y angle : ℚ)
    (speedOverride : Option ℚ) : Projectile :=
  let speed := jsOrDefault speedOverride defaultSpeed
  ⟨x, y, jsCos angle * speed, jsSin angle * speed, defaultLife, defaultLife⟩

/-- ProjectileSystem.spawn: push the new projectile onto the collection. -/
def spawn (jsCos jsSin : ℚ → ℚ) (ps : List Projectile) (x y angle : ℚ)
    (speedOverride : Option ℚ) : List Projectile :=
  ps ++ [mkProjectile jsCos jsSin x y angle speedOverride]

/-- The per-projectile body of ProjectileSystem.update: integrate the
position, decrement `life`, then force `life = 0` if the tile at the new
position is impassable. -/
def stepProjectile (prand : ℤ → ℤ → ℚ) (dt : ℚ) (p : Projectile) : Projectile :=
  let x := p.x + p.vx * dt
  let y := p.y + p.vy * dt
  let life0 := p.life - dt
  let life := if !(isPassable prand x y) then 0 else life0
  { p with x := x, y := y, life := life }

/-- ProjectileSystem.update: step every projectile, then remove those with
`life ≤ 0`.  The source iterates in reverse and splices, which removes
exactly the post-step `life ≤ 0` projectiles while preserving the relative
order of the survivors — i.e. an order-preserving map-then-filter. -/
def projUpdate (prand : ℤ → ℤ → ℚ) (dt : ℚ) (ps : List Projectile) : List Projectile :=
  (ps.map (stepProjectile prand dt)).filter fun p => !decide (p.life ≤ 0)

/-- Iterated projectile updates over a list of frame deltas. -/
def foldProj (prand : ℤ → ℤ → ℚ) (ps : List Projectile) (dts : List ℚ) : List Projectile :=
  dts.foldl (fun acc dt => projUpdate prand dt acc) ps

/-- The positions a projectile visits under a tick sequence are all
passable (the premise of the no-wall half of the projectile-expiry claim). -/
def pathPassable (prand : ℤ → ℤ → ℚ) : Projectile → List ℚ → Prop
  | _, [] => True
  | p, dt :: rest =>
      isPassable prand (p.x + p.vx * dt) (p.y + p.vy * dt) = true ∧
      pathPassable prand (stepProjectile prand dt p) rest

/-- Range guarantee of the real `pseudoRandom` hash: `frac` of a finite
double always lies in `[0, 1)`. -/
def PRand01 (prand : ℤ → ℤ → ℚ) : Prop :=
  ∀ x y, 0 ≤ prand x y ∧ prand x y < 1

/-- Rename Sand to Grass, the single point where the two parallel
`generateChunk` implementations differ. -/
def sandToGrass : TileType → TileType
  | .Sand => .Grass
  | t => t

/-- All direction/trigger keys released (the idle input frame). -/
def noKeys : InputKeys := ⟨false, false, false, false, false, false, false⟩

theorem tileToLocal_eq_emod (t : ℤ) : tileToLocal t = t % 16 := by
  have h1 : Int.tmod t 16 < 16 := Int.tmod_lt_of_pos t (by norm_num)
  have h2 : -16 < Int.tmod t 16 := by
    cases t with
    | ofNat m =>
        have := Int.tmod_nonneg (a := Int.ofNat m) 16 (by exact Int.ofNat_nonneg m)
        omega
    | negSucc m =>
        have hm : Nat.succ m % 16 < 16 := Nat.mod_lt _ (by norm_num)
        have hdef : Int.tmod (Int.negSucc m) 16 = -((Nat.succ m % 16 : ℕ) : ℤ) := rfl
        omega
  obtain ⟨k, hk⟩ : ∃ k, t - Int.tmod t 16 = 16 * k := by
    refine ⟨t.tdiv 16, ?_⟩
    rw [Int.tmod_def]
    ring
  simp only [tileToLocal, chunkSize]
  split <;> omega

theorem tileToChunk_mul_add_local (t : ℤ) : tileToChunk t * 16 + tileToLocal t = t := by
  have hc : tileToChunk t = t / 16 := by
    simp only [tileToChunk, chunkSize]
    have : ((16 : ℤ) : ℚ) = ((16 : ℕ) : ℚ) := by norm_num
    rw [this, Rat.floor_intCast_div_natCast]
    norm_num
  rw [hc, tileToLocal_eq_emod]
  omega

theorem tileToLocal_nonneg (t : ℤ) : 0 ≤ tileToLocal t := by
  rw [tileToLocal_eq_emod]; exact Int.emod_nonneg t (by norm_num)

theorem tileToLocal_lt (t : ℤ) : tileToLocal t < 16 := by
  rw [tileToLocal_eq_emod]; exact Int.emod_lt_of_pos t (by norm_num)

theorem generateChunk_getD (prand : ℤ → ℤ → ℚ) (cx cy : ℤ) (lx ly : ℕ)
    (hx : lx < 16) (hy : ly < 16) :
    ((generateChunk prand cx cy).getD ly []).getD lx .Grass
      = classifyTile prand (cx * 16 + (lx : ℤ)) (cy * 16 + (ly : ℤ)) := by
  unfold generateChunk
  rw [List.getD_eq_getElem?_getD, List.getD_eq_getElem?_getD,
    List.getElem?_map, List.getElem?_range hy]
  simp
  rw [List.getElem?_range hx]
  simp

theorem getTileAt_eq (prand : ℤ → ℤ → ℚ) (wX wY : ℚ) :
    getTileAt prand wX wY = classifyTile prand (worldToTile wX) (worldToTile wY) := by
  unfold getTileAt
  have hx1 := tileToLocal_nonneg (worldToTile wX)
  have hx2 := tileToLocal_lt (worldToTile wX)
  have hy1 := tileToLocal_nonneg (worldToTile wY)
  have hy2 := tileToLocal_lt (worldToTile wY)
  rw [generateChunk_getD _ _ _ _ _ (by omega) (by omega)]
  rw [Int.toNat_of_nonneg hx1, Int.toNat_of_nonneg hy1,
    tileToChunk_mul_add_local, tileToChunk_mul_add_local]

theorem getTileAt_center (prand : ℤ → ℤ → ℚ) (x y : ℤ) :
    getTileAt prand ((x : ℚ) * tileSize + tileSize / 2)
      ((y : ℚ) * tileSize + tileSize / 2) = classifyTile prand x y := by
  rw [getTileAt_eq]
  have h : ∀ t : ℤ, worldToTile ((t : ℚ) * tileSize + tileSize / 2) = t := by
    intro t
    simp only [worldToTile, tileSize]
    rw [show ((t : ℚ) * 64 + 64 / 2) / 64 = (t : ℚ) + 1/2 by ring]
    rw [Int.floor_int_add]
    norm_num
  rw [h, h]

theorem jsPI_pos : 0 < jsPI := by norm_num [jsPI]

theorem wrapAngle_mem (a : ℚ) : -jsPI < wrapAngle a ∧ wrapAngle a ≤ jsPI := by
  have hτ : 0 < 2 * jsPI := by have := jsPI_pos; linarith
  set c : ℤ := ⌈a / (2 * jsPI) - 1/2⌉ with hc
  have h1 : a / (2 * jsPI) - 1/2 ≤ (c : ℚ) := Int.le_ceil _
  have h2 : (c : ℚ) < a / (2 * jsPI) - 1/2 + 1 := Int.ceil_lt_add_one _
  have ha : a = (a / (2 * jsPI)) * (2 * jsPI) := by field_simp
  constructor
  · have := mul_lt_mul_of_pos_right h2 hτ
    simp only [wrapAngle, ← hc]
    nlinarith
  · have := mul_le_mul_of_nonneg_right h1 (le_of_lt hτ)
    simp only [wrapAngle, ← hc]
    nlinarith

theorem wrapAngle_sub_int_mul (a : ℚ) : ∃ k : ℤ, wrapAngle a = a - 2 * jsPI * (k : ℚ) :=
  ⟨⌈a / (2 * jsPI) - 1/2⌉, rfl⟩

theorem lerp_mem {a b t : ℚ} (ha0 : 0 ≤ a) (ha1 : a < 1) (hb0 : 0 ≤ b)
    (hb1 : b < 1) (ht0 : 0 ≤ t) (ht1 : t ≤ 1) : 0 ≤ lerp a b t ∧ lerp a b t < 1 := by
  unfold lerp
  constructor
  · nlinarith
  · rcases eq_or_lt_of_le ht0 with h | h
    · rw [← h]; linarith
    · have h1 : b * t < 1 * t := mul_lt_mul_of_pos_right hb1 h
      have h2 : a * (1 - t) ≤ 1 * (1 - t) :=
        mul_le_mul_of_nonneg_right (le_of_lt ha1) (by linarith)
      nlinarith

theorem smoothstep_mem {f : ℚ} (h0 : 0 ≤ f) (h1 : f < 1) :
    0 ≤ f * f * (3 - 2 * f) ∧ f * f * (3 - 2 * f) ≤ 1 := by
  constructor
  · nlinarith
  · nlinarith [sq_nonneg (1 - f), mul_nonneg (mul_nonneg h0 h0) h0]

theorem noise_mem {prand : ℤ → ℤ → ℚ} (hp : PRand01 prand) (x y : ℚ) :
    0 ≤ noise prand x y ∧ noise prand x y < 1 := by
  unfold noise
  have hfx0 : 0 ≤ x - (⌊x⌋ : ℚ) := by
    have := Int.floor_le x; linarith
  have hfx1 : x - (⌊x⌋ : ℚ) < 1 := by
    have := Int.lt_floor_add_one x; linarith
  have hfy0 : 0 ≤ y - (⌊y⌋ : ℚ) := by
    have := Int.floor_le y; linarith
  have hfy1 : y - (⌊y⌋ : ℚ) < 1 := by
    have := Int.lt_floor_add_one y; linarith
  have hux := smoothstep_mem hfx0 hfx1
  have huy := smoothstep_mem hfy0 hfy1
  have h1 := lerp_mem (hp ⌊x⌋ ⌊y⌋).1 (hp ⌊x⌋ ⌊y⌋).2 (hp (⌊x⌋ + 1) ⌊y⌋).1
    (hp (⌊x⌋ + 1) ⌊y⌋).2 hux.1 hux.2
  have h2 := lerp_mem (hp ⌊x⌋ (⌊y⌋ + 1)).1 (hp ⌊x⌋ (⌊y⌋ + 1)).2
    (hp (⌊x⌋ + 1) (⌊y⌋ + 1)).1 (hp (⌊x⌋ + 1) (⌊y⌋ + 1)).2 hux.1 hux.2
  exact lerp_mem h1.1 h1.2 h2.1 h2.2 huy.1 huy.2

theorem boundaryLimit_ge {prand : ℤ → ℤ → ℚ} (hp : PRand01 prand) (wx wy : ℤ) :
    88 ≤ boundaryLimit prand wx wy := by
  unfold boundaryLimit boundaryStart worldRadiusChunks chunkSize
  have := (noise_mem hp ((wx : ℚ) * (1/20)) ((wy : ℚ) * (1/20))).1
  norm_num
  nlinarith

theorem boundaryLimit_le {prand : ℤ → ℤ → ℚ} (hp : PRand01 prand) (wx wy : ℤ) :
    boundaryLimit prand wx wy ≤ 103 := by
  unfold boundaryLimit boundaryStart worldRadiusChunks chunkSize
  have := (noise_mem hp ((wx : ℚ) * (1/20)) ((wy : ℚ) * (1/20))).2
  norm_num
  nlinarith

theorem classifyTileB_eq_sandToGrass (prand : ℤ → ℤ → ℚ) (wx wy : ℤ) :
    classifyTileB prand wx wy = sandToGrass (classifyTile prand wx wy) := by
  simp only [classifyTile, classifyTileB]
  split_ifs <;> rfl

theorem generateChunkB_getD (prand : ℤ → ℤ → ℚ) (cx cy : ℤ) (lx ly : ℕ)
    (hx : lx < 16) (hy : ly < 16) :
    ((generateChunkB prand cx cy).getD ly []).getD lx .Grass
      = classifyTileB prand (cx * 16 + (lx : ℤ)) (cy * 16 + (ly : ℤ)) := by
  unfold generateChunkB
  rw [List.getD_eq_getElem?_getD, List.getD_eq_getElem?_getD,
    List.getElem?_map, List.getElem?_range hy]
  simp
  rw [List.getElem?_range hx]
  simp

/-- C1 counterexample: the claim "every tile with dist < 10 is Grass,
regardless of the road test" is false at the origin tile of chunk (0, 0).
The classification of that tile depends on the hash only through
`prand 0 0` (all interpolation weights are 0 there), and the real
`pseudoRandom(0,0) = frac(sin(0)·43758.5453) = 0`, so the constant-0 hash
reproduces the real generator at this tile: `dist = 0 < 10`, yet the road
test fires (`|(0+0) % 50| = 0 < 2`) and the tile is Road, not Grass. -/
theorem C1_counterexample :
    PRand01 (fun _ _ => 0) ∧ (fun _ _ => (0 : ℚ)) 0 0 = 0 ∧
    distSq 0 0 < 100 ∧
    ((generateChunk (fun _ _ => 0) 0 0).getD 0 []).getD 0 .Grass = TileType.Road := by
  refine ⟨fun x y => by norm_num, rfl, by norm_num [distSq], ?_⟩
  rw [generateChunk_getD (fun _ _ => 0) 0 0 0 0 (by norm_num) (by norm_num)]
  norm_num [classifyTile, boundaryLimit, boundaryStart, noise, lerp, distSq, sqrtGT,
    sqrtLT, isRoadAt, jsMod, ratTrunc, worldRadiusChunks, chunkSize]

/-- C1 (amended): with the hash range in [0, 1), every generated tile with
`dist < 10` (i.e. `wx² + wy² < 100`) lies inside the boundary and is
classified Grass unless the road test fires at it, in which case it is
Road — the `dist < 10` override precedes only the biome thresholds, not the
road test. -/
theorem C1_spawn_safety {prand : ℤ → ℤ → ℚ} (hp : PRand01 prand) (wx wy : ℤ)
    (hdist : distSq wx wy < 100) :
    classifyTile prand wx wy
      = if isRoadAt prand wx wy then TileType.Road else TileType.Grass := by
  have hlim := boundaryLimit_ge hp wx wy
  have hout : sqrtGT (distSq wx wy) (boundaryLimit prand wx wy) = false := by
    unfold sqrtGT
    rw [decide_eq_false (by linarith : ¬ boundaryLimit prand wx wy < 0),
      decide_eq_false (by nlinarith :
        ¬ boundaryLimit prand wx wy * boundaryLimit prand wx wy < distSq wx wy)]
    rfl
  have hin : sqrtLT (distSq wx wy) 10 = true := by
    unfold sqrtLT
    rw [decide_eq_true (by norm_num : (0:ℚ) < 10),
      decide_eq_true (by linarith : distSq wx wy < 10 * 10)]
    rfl
  cases hroad : isRoadAt prand wx wy <;>
    simp [classifyTile, hout, hroad, hin]

/-- C1 witness: at tile (3, 0) with the constant-1/2 hash the hypotheses
hold, the road test does not fire, and the tile is Grass. -/
theorem C1_spawn_safety_witness :
    PRand01 (fun _ _ => 1/2) ∧ distSq 3 0 < 100 ∧
    isRoadAt (fun _ _ => 1/2) 3 0 = false ∧
    classifyTile (fun _ _ => 1/2) 3 0 = TileType.Grass := by
  have hp : PRand01 (fun _ _ => (1/2 : ℚ)) := fun x y => by norm_num
  have hroad : isRoadAt (fun _ _ => (1/2 : ℚ)) 3 0 = false := by
    norm_num [isRoadAt, noise, lerp, jsMod, ratTrunc]
  have hd : distSq 3 0 < 100 := by norm_num [distSq]
  refine ⟨hp, hd, hroad, ?_⟩
  rw [C1_spawn_safety hp 3 0 hd, hroad]
  rfl

/-- C2 counterexample: the two parallel `generateChunk` implementations are
not tile-for-tile identical.  With the (range-respecting) constant-27/100
hash, the biome value at tile (10, 10) of chunk (0, 0) is 0.27 ∈ [0.25, 0.3),
where the primary implementation produces Sand and the duplicate produces
Grass, so the two grids differ. -/
theorem C2_counterexample :
    PRand01 (fun _ _ => 27/100) ∧
    generateChunk (fun _ _ => 27/100) 0 0 ≠ generateChunkB (fun _ _ => 27/100) 0 0 := by
  refine ⟨fun x y => by norm_num, fun h => ?_⟩
  have h10 := congrArg (fun l => ((l.getD 10 []).getD 10 TileType.Grass)) h
  simp only at h10
  rw [generateChunk_getD (fun _ _ => 27/100) 0 0 10 10 (by norm_num) (by norm_num),
    generateChunkB_getD (fun _ _ => 27/100) 0 0 10 10 (by norm_num) (by norm_num)] at h10
  have hA : classifyTile (fun _ _ => 27/100) (0 * 16 + (10:ℕ)) (0 * 16 + (10:ℕ))
      = TileType.Sand := by
    norm_num [classifyTile, boundaryLimit, boundaryStart, noise, lerp, distSq, sqrtGT,
      sqrtLT, isRoadAt, biomeVal, jsMod, ratTrunc, worldRadiusChunks, chunkSize, abs_lt]
  have hB : classifyTileB (fun _ _ => 27/100) (0 * 16 + (10:ℕ)) (0 * 16 + (10:ℕ))
      = TileType.Grass := by
    norm_num [classifyTileB, boundaryLimit, boundaryStart, noise, lerp, distSq, sqrtGT,
      sqrtLT, isRoadAt, biomeVal, jsMod, ratTrunc, worldRadiusChunks, chunkSize, abs_lt]
  rw [hA, hB] at h10
  exact TileType.noConfusion h10

/-- C2 (amended): the two parallel `generateChunk` implementations agree
tile-for-tile up to the single renaming Sand ↦ Grass: the duplicate grid is
exactly the primary grid with every Sand tile replaced by Grass (and on any
chunk without Sand tiles the grids coincide). -/
theorem C2_parallel_equivalence (prand : ℤ → ℤ → ℚ) (cx cy : ℤ) :
    generateChunkB prand cx cy
      = (generateChunk prand cx cy).map (List.map sandToGrass) := by
  unfold generateChunk generateChunkB
  simp [List.map_map, Function.comp_def, classifyTileB_eq_sandToGrass]

/-- C5: boundary containment.  With the constants of the source
(`worldRadiusChunks = 6`, `chunkSize = 16`, `boundaryStart = 88`) and the
hash range in [0, 1), so that `limit = boundaryLimit ≥ 88 > 0` and the
squared comparisons below are equivalent to the source's comparisons of
`dist = sqrt(wx²+wy²)`: any tile with `dist > limit + 10` is Bedrock and
impassable, and any tile with `limit < dist ≤ limit + 10` is Cliff. -/
theorem C5_boundary_containment {prand : ℤ → ℤ → ℚ} (hp : PRand01 prand) (wx wy : ℤ) :
    (((boundaryLimit prand wx wy + 10) * (boundaryLimit prand wx wy + 10) < distSq wx wy) →
        classifyTile prand wx wy = TileType.Bedrock ∧
        (TILE_DEFS (classifyTile prand wx wy)).passable = false) ∧
    ((boundaryLimit prand wx wy * boundaryLimit prand wx wy < distSq wx wy ∧
        distSq wx wy ≤ (boundaryLimit prand wx wy + 10) * (boundaryLimit prand wx wy + 10)) →
        classifyTile prand wx wy = TileType.Cliff) := by
  have hlim := boundaryLimit_ge hp wx wy
  constructor
  · intro h
    have h1 : sqrtGT (distSq wx wy) (boundaryLimit prand wx wy) = true := by
      unfold sqrtGT
      rw [decide_eq_true (by nlinarith :
        boundaryLimit prand wx wy * boundaryLimit prand wx wy < distSq wx wy)]
      simp
    have h2 : sqrtGT (distSq wx wy) (boundaryLimit prand wx wy + 10) = true := by
      unfold sqrtGT
      rw [decide_eq_true h]
      simp
    constructor
    · simp [classifyTile, h1, h2]
    · simp [classifyTile, h1, h2, TILE_DEFS]
  · rintro ⟨hl, hu⟩
    have h1 : sqrtGT (distSq wx wy) (boundaryLimit prand wx wy) = true := by
      unfold sqrtGT
      rw [decide_eq_true hl]
      simp
    have h2 : sqrtGT (distSq wx wy) (boundaryLimit prand wx wy + 10) = false := by
      unfold sqrtGT
      rw [decide_eq_false (by linarith : ¬ boundaryLimit prand wx wy + 10 < 0),
        decide_eq_false (not_lt.mpr hu)]
      rfl
    simp [classifyTile, h1, h2]

/-- C5 witness: with the constant-1/2 hash, `limit = 95.5` everywhere; tile
(120, 0) has `dist² = 14400 > 105.5²` and is impassable Bedrock, and tile
(100, 0) has `95.5² < dist² = 10000 ≤ 105.5²` and is Cliff. -/
theorem C5_boundary_containment_witness :
    (classifyTile (fun _ _ => 1/2) 120 0 = TileType.Bedrock ∧
      (TILE_DEFS (classifyTile (fun _ _ => 1/2) 120 0)).passable = false) ∧
    classifyTile (fun _ _ => 1/2) 100 0 = TileType.Cliff := by
  have hp : PRand01 (fun _ _ => (1/2 : ℚ)) := fun x y => by norm_num
  have hL : ∀ wx wy : ℤ, boundaryLimit (fun _ _ => (1/2 : ℚ)) wx wy = 191/2 := by
    intro wx wy
    norm_num [boundaryLimit, boundaryStart, noise, lerp, worldRadiusChunks, chunkSize]
  refine ⟨(C5_boundary_containment hp 120 0).1 ?_, (C5_boundary_containment hp 100 0).2 ⟨?_, ?_⟩⟩
  · rw [hL]; norm_num [distSq]
  · rw [hL]; norm_num [distSq]
  · rw [hL]; norm_num [distSq]

/-- C8: negative-coordinate tile mapping.  With `tileSize = 64` and
`chunkSize = 16`, the lookup path of `getTileAt` sends world coordinate −10
to tile −1, chunk −1, local index 15; and for every tile coordinate the
local index lies in [0, 16). -/
theorem C8_negative_tile_mapping :
    (worldToTile (-10) = -1 ∧ tileToChunk (worldToTile (-10)) = -1 ∧
      tileToLocal (worldToTile (-10)) = 15) ∧
    ∀ t : ℤ, 0 ≤ tileToLocal t ∧ tileToLocal t < 16 := by
  have h1 : worldToTile (-10) = -1 := by
    unfold worldToTile tileSize
    rw [show ((-10 : ℚ) / 64) = (-10 : ℤ) / ((64 : ℕ) : ℚ) by norm_num]
    rw [Rat.floor_intCast_div_natCast]
    decide
  refine ⟨⟨h1, ?_, ?_⟩, fun t => ⟨tileToLocal_nonneg t, tileToLocal_lt t⟩⟩
  · rw [h1]
    unfold tileToChunk chunkSize
    rw [show (((-1 : ℤ) : ℚ) / ((16 : ℤ) : ℚ)) = (-1 : ℤ) / ((16 : ℕ) : ℚ) by norm_num]
    rw [Rat.floor_intCast_div_natCast]
    decide
  · rw [h1, tileToLocal_eq_emod]
    decide

/-- C10: `ProjectileSystem.spawn` with `speedOverride = 0` is
indistinguishable from omitting the override: the falsy test
`speedOverride || defaultSpeed` selects the default 1500, so the spawned
projectile moves at the default speed and no zero-speed projectile can be
created through `spawn`. -/
theorem C10_spawn_zero_override (jsCos jsSin : ℚ → ℚ) (ps : List Projectile)
    (x y angle : ℚ) :
    spawn jsCos jsSin ps x y angle (some 0) = spawn jsCos jsSin ps x y angle none ∧
    (mkProjectile jsCos jsSin x y angle (some 0)).vx = jsCos angle * defaultSpeed ∧
    (mkProjectile jsCos jsSin x y angle (some 0)).vy = jsSin angle * defaultSpeed := by
  refine ⟨?_, rfl, rfl⟩
  unfold spawn mkProjectile jsOrDefault
  simp

/-- C3 counterexample: timers are not clamped at 0.  From the state the code
itself produces right after a shot (`fireTimer = fireRate = 0.12`), a single
idle update with `dt = 0.2 ≥ 0` leaves `fireTimer = -0.08 < 0`: the
decrement `if (fireTimer > 0) fireTimer -= dt` checks the sign but does not
clamp the result. -/
theorem C3_counterexample :
    (0 : ℚ) ≤ 1/5 ∧
    (update (fun _ _ => 1/2) (fun _ => 0) (fun _ => 0) (fun _ => 0) (fun _ _ => 0)
        ⟨⟨200, 200⟩, ⟨0, 0⟩, 0, 0, 3/25, false, 0, 2, 0, 0⟩ (1/5) noKeys
        ⟨200, 200⟩ 0).1.fireTimer < 0 := by
  constructor
  · norm_num
  · norm_num [update, shotFired, fireTimerDec, dashStarted, noKeys, resolveCollision,
      rechargeStep, debounceDec, maxDashCharges]

/-- C3 (amended): between triggering events the per-frame timers are
monotonically non-increasing, but they are sign-checked rather than clamped
and may become negative (see the counterexample); and `dashRechargeTimer` is
a count-up accumulator, never negative, rather than a non-increasing timer.
Concretely, for any update with `dt ≥ 0`: if no shot fires, `fireTimer` does
not increase; if no dash starts, `dashTimer` and `dashDebounceTimer` do not
increase; and `dashRechargeTimer` stays non-negative. -/
theorem C3_timers (prand : ℤ → ℤ → ℚ) (jsSqrt jsCos jsSin : ℚ → ℚ)
    (at2 : ℚ → ℚ → ℚ) (p : PlayerState) (dt : ℚ) (keys : InputKeys)
    (mouse : MouseStateQ) (bonus : ℚ) (hdt : 0 ≤ dt) :
    (shotFired p keys dt = false →
      (update prand jsSqrt jsCos jsSin at2 p dt keys mouse bonus).1.fireTimer
        ≤ p.fireTimer) ∧
    (dashStarted jsSqrt p keys dt = false →
      (update prand jsSqrt jsCos jsSin at2 p dt keys mouse bonus).1.dashTimer
          ≤ p.dashTimer ∧
      (update prand jsSqrt jsCos jsSin at2 p dt keys mouse bonus).1.dashDebounceTimer
          ≤ p.dashDebounceTimer) ∧
    (0 ≤ p.dashRechargeTimer →
      0 ≤ (update prand jsSqrt jsCos jsSin at2 p dt keys mouse bonus).1.dashRechargeTimer) := by
  refine ⟨?_, ?_, ?_⟩
  · intro hs
    cases hd : p.isDashing <;>
      cases hd2 : dashStarted jsSqrt p keys dt <;>
        simp [update, hd, hd2, hs, resolveCollision, startDash, fireTimerDec] <;>
          split_ifs <;> linarith
  · intro hs
    cases hd : p.isDashing <;>
      simp [update, hd, hs, resolveCollision, debounceDec] <;>
        split_ifs <;> (try constructor) <;> linarith
  · intro hr
    cases hd : p.isDashing <;>
      cases hd2 : dashStarted jsSqrt p keys dt <;>
        simp [update, hd, hd2, resolveCollision, startDash, rechargeStep] <;>
          split_ifs <;> simp <;> linarith

/-- C3 witness: a concrete idle tick discharging every hypothesis of the
amended timer theorem. -/
theorem C3_timers_witness :
    (0 : ℚ) ≤ 1/10 ∧
    shotFired ⟨⟨200, 200⟩, ⟨0, 0⟩, 0, 0, 1/10, false, 0, 2, 1/2, 0⟩ noKeys (1/10) = false ∧
    dashStarted (fun _ => 0) ⟨⟨200, 200⟩, ⟨0, 0⟩, 0, 0, 1/10, false, 0, 2, 1/2, 0⟩
      noKeys (1/10) = false ∧
    ((update (fun _ _ => 1/2) (fun _ => 0) (fun _ => 0) (fun _ => 0) (fun _ _ => 0)
        ⟨⟨200, 200⟩, ⟨0, 0⟩, 0, 0, 1/10, false, 0, 2, 1/2, 0⟩ (1/10) noKeys
        ⟨0, 0⟩ 0).1.fireTimer ≤ 1/10 ∧
      (update (fun _ _ => 1/2) (fun _ => 0) (fun _ => 0) (fun _ => 0) (fun _ _ => 0)
        ⟨⟨200, 200⟩, ⟨0, 0⟩, 0, 0, 1/10, false, 0, 2, 1/2, 0⟩ (1/10) noKeys
        ⟨0, 0⟩ 0).1.dashTimer ≤ 0 ∧
      0 ≤ (update (fun _ _ => 1/2) (fun _ => 0) (fun _ => 0) (fun _ => 0) (fun _ _ => 0)
        ⟨⟨200, 200⟩, ⟨0, 0⟩, 0, 0, 1/10, false, 0, 2, 1/2, 0⟩ (1/10) noKeys
        ⟨0, 0⟩ 0).1.dashRechargeTimer) := by
  have hsf : shotFired ⟨⟨200, 200⟩, ⟨0, 0⟩, 0, 0, 1/10, false, 0, 2, 1/2, 0⟩
      noKeys (1/10) = false := by
    simp [shotFired, noKeys]
  have hds : dashStarted (fun _ => 0) ⟨⟨200, 200⟩, ⟨0, 0⟩, 0, 0, 1/10, false, 0, 2, 1/2, 0⟩
      noKeys (1/10) = false := by
    simp [dashStarted, noKeys]
  have h := C3_timers (fun _ _ => 1/2) (fun _ => 0) (fun _ => 0) (fun _ => 0) (fun _ _ => 0)
    ⟨⟨200, 200⟩, ⟨0, 0⟩, 0, 0, 1/10, false, 0, 2, 1/2, 0⟩ (1/10) noKeys ⟨0, 0⟩ 0
    (by norm_num)
  exact ⟨by norm_num, hsf, hds, h.1 hsf, (h.2.1 hds).1, h.2.2 (by norm_num)⟩

/-- C4 counterexample: the rotation itself is not renormalized into
(−π, π].  Only the angular delta is wrapped; with `rotationSpeed·dt = 1.2`
the applied step overshoots the target.  Aiming at bearing 3 rad (a legal
`atan2` value: 3 ≤ Math.PI) from rotation 0 with the clamped maximum
`dt = 0.1` yields rotation 3 · 12 · 0.1 = 3.6 > Math.PI after one tick. -/
theorem C4_counterexample :
    (0 : ℚ) ≤ 1/10 ∧ (1/10 : ℚ) ≤ 1/10 ∧
    (-jsPI < (3 : ℚ) ∧ (3 : ℚ) ≤ jsPI) ∧
    (-jsPI < (0 : ℚ) ∧ (0 : ℚ) ≤ jsPI) ∧
    jsPI < (update (fun _ _ => 1/2) (fun _ => 0) (fun _ => 0) (fun _ => 0) (fun _ _ => 3)
        ⟨⟨200, 200⟩, ⟨0, 0⟩, 0, 0, 0, false, 0, 2, 0, 0⟩ (1/10) noKeys
        ⟨0, 0⟩ 0).1.rotation := by
  refine ⟨by norm_num, by norm_num, ⟨by norm_num [jsPI], by norm_num [jsPI]⟩,
    ⟨by norm_num [jsPI], by norm_num [jsPI]⟩, ?_⟩
  have hceil : (⌈-(39854788871587/1768559438007110 : ℚ)⌉ : ℤ) = 0 := by
    rw [Int.ceil_eq_zero_iff]
    norm_num [Set.mem_Ioc]
  norm_num [update, wrapAngle, jsPI, shotFired, fireTimerDec, dashStarted, noKeys,
    rechargeStep, debounceDec, resolveCollision, rotationSpeed, maxDashCharges, hceil]

/-- C4 (amended): step 1 of the update renormalizes the angular *delta*
into (−Math.PI, Math.PI] each tick, but the stored rotation is not
renormalized and can leave that interval (see the counterexample).  What
holds instead: for any tick with `0 ≤ dt ≤ 0.1` starting from a rotation in
(−Math.PI, Math.PI], the new rotation is the old one plus the wrapped delta
times `rotationSpeed·dt` and stays within the bounded overshoot interval
[−2.2·Math.PI, 2.2·Math.PI]. -/
theorem C4_rotation_bound (prand : ℤ → ℤ → ℚ) (jsSqrt jsCos jsSin : ℚ → ℚ)
    (at2 : ℚ → ℚ → ℚ) (p : PlayerState) (dt : ℚ) (keys : InputKeys)
    (mouse : MouseStateQ) (bonus : ℚ) (hdt0 : 0 ≤ dt) (hdt1 : dt ≤ 1/10)
    (h1 : -jsPI < p.rotation) (h2 : p.rotation ≤ jsPI) :
    (-jsPI < wrapAngle (at2 (mouse.worldY - p.pos.y) (mouse.worldX - p.pos.x) - p.rotation) ∧
      wrapAngle (at2 (mouse.worldY - p.pos.y) (mouse.worldX - p.pos.x) - p.rotation) ≤ jsPI) ∧
    (update prand jsSqrt jsCos jsSin at2 p dt keys mouse bonus).1.rotation
      = p.rotation
        + wrapAngle (at2 (mouse.worldY - p.pos.y) (mouse.worldX - p.pos.x) - p.rotation)
          * rotationSpeed * dt ∧
    -(11/5 * jsPI) ≤ (update prand jsSqrt jsCos jsSin at2 p dt keys mouse bonus).1.rotation ∧
    (update prand jsSqrt jsCos jsSin at2 p dt keys mouse bonus).1.rotation ≤ 11/5 * jsPI := by
  have hw := wrapAngle_mem (at2 (mouse.worldY - p.pos.y) (mouse.worldX - p.pos.x) - p.rotation)
  have heq : (update prand jsSqrt jsCos jsSin at2 p dt keys mouse bonus).1.rotation
      = p.rotation
        + wrapAngle (at2 (mouse.worldY - p.pos.y) (mouse.worldX - p.pos.x) - p.rotation)
          * rotationSpeed * dt := by
    cases hd : p.isDashing <;>
      cases hd2 : dashStarted jsSqrt p keys dt <;>
        simp [update, hd, hd2, resolveCollision, startDash]
  set w := wrapAngle (at2 (mouse.worldY - p.pos.y) (mouse.worldX - p.pos.x) - p.rotation)
    with hwdef
  have hpi := jsPI_pos
  have hA1 : w * dt ≤ jsPI * dt := mul_le_mul_of_nonneg_right hw.2 hdt0
  have hA2 : -jsPI * dt ≤ w * dt := mul_le_mul_of_nonneg_right (le_of_lt hw.1) hdt0
  have hB : jsPI * dt ≤ jsPI * (1/10) := mul_le_mul_of_nonneg_left hdt1 (le_of_lt hpi)
  have hC : w * rotationSpeed * dt = 12 * (w * dt) := by unfold rotationSpeed; ring
  refine ⟨hw, heq, ?_, ?_⟩
  · rw [heq, hC]
    nlinarith
  · rw [heq, hC]
    nlinarith

/-- C4 witness: a concrete tick discharging the hypotheses of the amended
rotation theorem. -/
theorem C4_rotation_bound_witness :
    (0 : ℚ) ≤ 1/10 ∧ (1/10 : ℚ) ≤ 1/10 ∧
    (-jsPI < (0 : ℚ) ∧ (0 : ℚ) ≤ jsPI) ∧
    (-(11/5 * jsPI)
        ≤ (update (fun _ _ => 1/2) (fun _ => 0) (fun _ => 0) (fun _ => 0) (fun _ _ => 0)
            ⟨⟨200, 200⟩, ⟨0, 0⟩, 0, 0, 0, false, 0, 2, 0, 0⟩ (1/10) noKeys
            ⟨0, 0⟩ 0).1.rotation ∧
      (update (fun _ _ => 1/2) (fun _ => 0) (fun _ => 0) (fun _ => 0) (fun _ _ => 0)
            ⟨⟨200, 200⟩, ⟨0, 0⟩, 0, 0, 0, false, 0, 2, 0, 0⟩ (1/10) noKeys
            ⟨0, 0⟩ 0).1.rotation ≤ 11/5 * jsPI) := by
  have h := C4_rotation_bound (fun _ _ => 1/2) (fun _ => 0) (fun _ => 0) (fun _ => 0)
    (fun _ _ => 0) ⟨⟨200, 200⟩, ⟨0, 0⟩, 0, 0, 0, false, 0, 2, 0, 0⟩ (1/10) noKeys
    ⟨0, 0⟩ 0 (by norm_num) (by norm_num) (by norm_num [jsPI]) (by norm_num [jsPI])
  exact ⟨by norm_num, by norm_num, ⟨by norm_num [jsPI], by norm_num [jsPI]⟩,
    h.2.2.1, h.2.2.2⟩

theorem getMovementVector_noKeys (jsSqrt : ℚ → ℚ) :
    getMovementVector jsSqrt ⟨false, false, false, false, false, false, false⟩ = ⟨0, 0⟩ := by
  simp only [getMovementVector, rawMove, vecNormalize]
  split_ifs <;> simp

theorem update_noKeys_step (prand : ℤ → ℤ → ℚ) (jsSqrt jsCos jsSin : ℚ → ℚ)
    (at2 : ℚ → ℚ → ℚ) (mouse : MouseStateQ) (bonus : ℚ) (p q : PlayerState) (dt : ℚ)
    (hq : q = (update prand jsSqrt jsCos jsSin at2 p dt noKeys mouse bonus).1) :
    q.dashCharges = (rechargeStep p.dashCharges p.dashRechargeTimer dt).1 ∧
    q.dashRechargeTimer = (rechargeStep p.dashCharges p.dashRechargeTimer dt).2 ∧
    q.isDashing = (p.isDashing && !decide (p.dashTimer - dt ≤ 0)) ∧
    (p.isDashing = true → q.dashTimer = p.dashTimer - dt) ∧
    (q.isDashing = false → q.velocity = ⟨0, 0⟩) := by
  subst hq
  cases hd : p.isDashing <;>
    simp [update, hd, dashStarted, noKeys, getMovementVector_noKeys, resolveCollision,
      vecScale, vecZero] <;>
    split_ifs <;> simp_all

theorem foldUpd_nil (prand : ℤ → ℤ → ℚ) (jsSqrt jsCos jsSin : ℚ → ℚ)
    (at2 : ℚ → ℚ → ℚ) (keys : InputKeys) (mouse : MouseStateQ) (bonus : ℚ)
    (p : PlayerState) : foldUpd prand jsSqrt jsCos jsSin at2 keys mouse bonus p [] = p := rfl

theorem foldUpd_cons (prand : ℤ → ℤ → ℚ) (jsSqrt jsCos jsSin : ℚ → ℚ)
    (at2 : ℚ → ℚ → ℚ) (keys : InputKeys) (mouse : MouseStateQ) (bonus : ℚ)
    (p : PlayerState) (d : ℚ) (rest : List ℚ) :
    foldUpd prand jsSqrt jsCos jsSin at2 keys mouse bonus p (d :: rest)
      = foldUpd prand jsSqrt jsCos jsSin at2 keys mouse bonus
          (update prand jsSqrt jsCos jsSin at2 p d keys mouse bonus).1 rest := rfl

theorem foldUpd_noKeys_idle (prand : ℤ → ℤ → ℚ) (jsSqrt jsCos jsSin : ℚ → ℚ)
    (at2 : ℚ → ℚ → ℚ) (mouse : MouseStateQ) (bonus : ℚ) :
    ∀ (dts : List ℚ) (p : PlayerState), p.isDashing = false → p.velocity = ⟨0, 0⟩ →
      (foldUpd prand jsSqrt jsCos jsSin at2 noKeys mouse bonus p dts).isDashing = false ∧
      (foldUpd prand jsSqrt jsCos jsSin at2 noKeys mouse bonus p dts).velocity = ⟨0, 0⟩ := by
  intro dts
  induction dts with
  | nil => intro p h1 h2; rw [foldUpd_nil]; exact ⟨h1, h2⟩
  | cons d rest ih =>
      intro p h1 h2
      have hs := update_noKeys_step prand jsSqrt jsCos jsSin at2 mouse bonus p _ d rfl
      have hq1 : (update prand jsSqrt jsCos jsSin at2 p d noKeys mouse bonus).1.isDashing
          = false := by
        rw [hs.2.2.1, h1]; rfl
      have hq2 := hs.2.2.2.2 hq1
      rw [foldUpd_cons]
      exact ih _ hq1 hq2

theorem foldUpd_noKeys_dashEnd (prand : ℤ → ℤ → ℚ) (jsSqrt jsCos jsSin : ℚ → ℚ)
    (at2 : ℚ → ℚ → ℚ) (mouse : MouseStateQ) (bonus : ℚ) :
    ∀ (dts : List ℚ) (p : PlayerState), (∀ d ∈ dts, 0 ≤ d) → p.isDashing = true →
      0 < p.dashTimer → p.dashTimer ≤ dts.sum →
      (foldUpd prand jsSqrt jsCos jsSin at2 noKeys mouse bonus p dts).isDashing = false ∧
      (foldUpd prand jsSqrt jsCos jsSin at2 noKeys mouse bonus p dts).velocity = ⟨0, 0⟩ := by
  intro dts
  induction dts with
  | nil =>
      intro p _ h1 h2 h3
      simp only [List.sum_nil] at h3
      linarith
  | cons d rest ih =>
      intro p hall h1 h2 h3
      have hs := update_noKeys_step prand jsSqrt jsCos jsSin at2 mouse bonus p _ d rfl
      rw [foldUpd_cons]
      by_cases hend : p.dashTimer - d ≤ 0
      · have hq1 : (update prand jsSqrt jsCos jsSin at2 p d noKeys mouse bonus).1.isDashing
            = false := by
          rw [hs.2.2.1, h1, decide_eq_true hend]
          rfl
        exact foldUpd_noKeys_idle prand jsSqrt jsCos jsSin at2 mouse bonus rest _
          hq1 (hs.2.2.2.2 hq1)
      · have hq1 : (update prand jsSqrt jsCos jsSin at2 p d noKeys mouse bonus).1.isDashing
            = true := by
          rw [hs.2.2.1, h1, decide_eq_false hend]
          rfl
        have hqt := hs.2.2.2.1 h1
        refine ih _ (fun x hx => hall x (List.mem_cons_of_mem d hx)) hq1 ?_ ?_
        · rw [hqt]; linarith
        · rw [hqt]
          simp only [List.sum_cons] at h3
          linarith

theorem foldUpd_noKeys_chargesFull (prand : ℤ → ℤ → ℚ) (jsSqrt jsCos jsSin : ℚ → ℚ)
    (at2 : ℚ → ℚ → ℚ) (mouse : MouseStateQ) (bonus : ℚ) :
    ∀ (dts : List ℚ) (p : PlayerState), p.dashCharges = 2 →
      (foldUpd prand jsSqrt jsCos jsSin at2 noKeys mouse bonus p dts).dashCharges = 2 := by
  intro dts
  induction dts with
  | nil => intro p h; rw [foldUpd_nil]; exact h
  | cons d rest ih =>
      intro p h
      have hs := update_noKeys_step prand jsSqrt jsCos jsSin at2 mouse bonus p _ d rfl
      rw [foldUpd_cons]
      refine ih _ ?_
      rw [hs.1, h]
      simp [rechargeStep, maxDashCharges]

theorem foldUpd_noKeys_recharge (prand : ℤ → ℤ → ℚ) (jsSqrt jsCos jsSin : ℚ → ℚ)
    (at2 : ℚ → ℚ → ℚ) (mouse : MouseStateQ) (bonus : ℚ) :
    ∀ (dts : List ℚ) (p : PlayerState), (∀ d ∈ dts, 0 ≤ d) → p.dashCharges = 1 →
      0 ≤ p.dashRechargeTimer → p.dashRechargeTimer < dashRechargeTime →
      dashRechargeTime ≤ p.dashRechargeTimer + dts.sum →
      (foldUpd prand jsSqrt jsCos jsSin at2 noKeys mouse bonus p dts).dashCharges = 2 := by
  intro dts
  induction dts with
  | nil =>
      intro p _ h1 h2 hlt h3
      simp only [List.sum_nil, add_zero] at h3
      linarith
  | cons d rest ih =>
      intro p hall h1 h2 hlt h3
      have hs := update_noKeys_step prand jsSqrt jsCos jsSin at2 mouse bonus p _ d rfl
      rw [foldUpd_cons]
      by_cases hfill : dashRechargeTime ≤ p.dashRechargeTimer + d
      · have hq : (update prand jsSqrt jsCos jsSin at2 p d noKeys mouse bonus).1.dashCharges
            = 2 := by
          rw [hs.1, h1]
          simp only [rechargeStep, maxDashCharges]
          rw [if_pos (by norm_num), if_pos (by linarith [hfill])]
          norm_num
        exact foldUpd_noKeys_chargesFull prand jsSqrt jsCos jsSin at2 mouse bonus rest _ hq
      · have hq1 : (update prand jsSqrt jsCos jsSin at2 p d noKeys mouse bonus).1.dashCharges
            = 1 := by
          rw [hs.1, h1]
          simp only [rechargeStep, maxDashCharges]
          rw [if_pos (by norm_num), if_neg (by intro hc; exact hfill (by linarith [hc]))]
        have hq2 : (update prand jsSqrt jsCos jsSin at2 p d
            noKeys mouse bonus).1.dashRechargeTimer = p.dashRechargeTimer + d := by
          rw [hs.2.1, h1]
          simp only [rechargeStep, maxDashCharges]
          rw [if_pos (by norm_num), if_neg (by intro hc; exact hfill (by linarith [hc]))]
        refine ih _ (fun x hx => hall x (List.mem_cons_of_mem d hx)) hq1 ?_ ?_ ?_
        · rw [hq2]
          have hd0 : 0 ≤ d := hall d (List.mem_cons_self d rest)
          linarith
        · rw [hq2]
          linarith [not_le.mp hfill]
        · rw [hq2]
          simp only [List.sum_cons] at h3
          linarith

theorem dashTrigger_step (prand : ℤ → ℤ → ℚ) (jsSqrt jsCos jsSin : ℚ → ℚ)
    (at2 : ℚ → ℚ → ℚ) (p : PlayerState) (keys : InputKeys) (mouse : MouseStateQ)
    (bonus dt : ℚ)
    (hnd : p.isDashing = false) (hch : p.dashCharges = 2) (hdb : p.dashDebounceTimer ≤ 0)
    (hsp : keys.space = true)
    (hpos : 0 < (rawMove keys).x * (rawMove keys).x + (rawMove keys).y * (rawMove keys).y)
    (hsq : jsSqrt ((rawMove keys).x * (rawMove keys).x + (rawMove keys).y * (rawMove keys).y)
        * jsSqrt ((rawMove keys).x * (rawMove keys).x + (rawMove keys).y * (rawMove keys).y)
        = (rawMove keys).x * (rawMove keys).x + (rawMove keys).y * (rawMove keys).y)
    (hone : 0 < jsSqrt 1) :
    (update prand jsSqrt jsCos jsSin at2 p dt keys mouse bonus).1.isDashing = true ∧
    (update prand jsSqrt jsCos jsSin at2 p dt keys mouse bonus).1.dashCharges = 1 ∧
    (update prand jsSqrt jsCos jsSin at2 p dt keys mouse bonus).1.velocity.x
        * (update prand jsSqrt jsCos jsSin at2 p dt keys mouse bonus).1.velocity.x
      + (update prand jsSqrt jsCos jsSin at2 p dt keys mouse bonus).1.velocity.y
        * (update prand jsSqrt jsCos jsSin at2 p dt keys mouse bonus).1.velocity.y
      = dashSpeed * dashSpeed := by
  set v := rawMove keys with hv
  set s := v.x * v.x + v.y * v.y with hsdef
  set m := jsSqrt s with hm
  have hmne : m ≠ 0 := by
    intro h0
    rw [h0, mul_zero] at hsq
    exact absurd hsq.symm (ne_of_gt hpos)
  have hmv : getMovementVector jsSqrt keys = ⟨v.x / m, v.y / m⟩ := by
    simp only [getMovementVector, vecNormalize, ← hv, ← hsdef, ← hm]
    rw [if_neg hmne]
  have hsne : s ≠ 0 := ne_of_gt hpos
  have hmag1 : (v.x / m) * (v.x / m) + (v.y / m) * (v.y / m) = 1 := by
    have hstep : (v.x / m) * (v.x / m) + (v.y / m) * (v.y / m) = s / (m * m) := by
      field_simp
    rw [hstep, hsq]
    exact div_self hsne
  have hmag : vecMag jsSqrt (getMovementVector jsSqrt keys) = jsSqrt 1 := by
    rw [hmv]
    simp only [vecMag]
    rw [hmag1]
  have hrc : rechargeStep p.dashCharges p.dashRechargeTimer dt
      = (p.dashCharges, p.dashRechargeTimer) := by
    simp [rechargeStep, maxDashCharges, hch]
  have hdd : debounceDec p.dashDebounceTimer dt = p.dashDebounceTimer := by
    simp [debounceDec, not_lt.mpr hdb]
  have hds : dashStarted jsSqrt p keys dt = true := by
    simp only [dashStarted, hnd, hsp, hrc, hdd, hmag, Bool.not_false, Bool.true_and]
    rw [decide_eq_true (by rw [hch]; norm_num : (0:ℚ) < (p.dashCharges, p.dashRechargeTimer).1),
      decide_eq_true hdb, decide_eq_true hone]
    rfl
  have hupd : (update prand jsSqrt jsCos jsSin at2 p dt keys mouse bonus).1
      = startDash { p with
          rotation := p.rotation
            + wrapAngle (at2 (mouse.worldY - p.pos.y) (mouse.worldX - p.pos.x) - p.rotation)
              * rotationSpeed * dt,
          targetRotation := at2 (mouse.worldY - p.pos.y) (mouse.worldX - p.pos.x),
          fireTimer := if shotFired p keys dt then fireRate else fireTimerDec p dt,
          dashCharges := (rechargeStep p.dashCharges p.dashRechargeTimer dt).1,
          dashRechargeTimer := (rechargeStep p.dashCharges p.dashRechargeTimer dt).2,
          dashDebounceTimer := debounceDec p.dashDebounceTimer dt }
        (getMovementVector jsSqrt keys) := by
    simp [update, hnd, hds]
  rw [hupd, hmv]
  refine ⟨rfl, ?_, ?_⟩
  · simp only [startDash]
    rw [hrc]
    simp only [hch]
    norm_num
  · simp only [startDash, vecScale]
    show v.x / m * dashSpeed * (v.x / m * dashSpeed) + v.y / m * dashSpeed * (v.y / m * dashSpeed)
      = dashSpeed * dashSpeed
    calc v.x / m * dashSpeed * (v.x / m * dashSpeed)
        + v.y / m * dashSpeed * (v.y / m * dashSpeed)
      = ((v.x / m) * (v.x / m) + (v.y / m) * (v.y / m)) * (dashSpeed * dashSpeed) := by ring
    _ = dashSpeed * dashSpeed := by rw [hmag1, one_mul]

/-- C6: dash lifecycle.  (1) From a non-dashing state with
`dashCharges = maxDashCharges = 2` and an expired debounce, a tick with dash
input held and a non-zero movement vector (whose squared magnitude has an
exact `jsSqrt`, as holds in the source for axis-aligned input) yields
`dashCharges = 1`, `isDashing = true`, and velocity of squared magnitude
`dashSpeed²`.  (2) From any dashing state, once the subsequent idle ticks'
`dt`s accumulate to `dashTimer` (initially `dashDuration`), `isDashing` is
false and the velocity has been reset to zero.  (3) From a state below max
charges (`dashCharges = 1`, recharge accumulator below threshold), once the
ticks' `dt`s accumulate to `dashRechargeTime`, `dashCharges` is back to 2. -/
theorem C6_dash_lifecycle :
    (∀ (prand : ℤ → ℤ → ℚ) (jsSqrt jsCos jsSin : ℚ → ℚ) (at2 : ℚ → ℚ → ℚ)
        (p : PlayerState) (keys : InputKeys) (mouse : MouseStateQ) (bonus dt : ℚ),
      p.isDashing = false → p.dashCharges = 2 → p.dashDebounceTimer ≤ 0 →
      keys.space = true →
      0 < (rawMove keys).x * (rawMove keys).x + (rawMove keys).y * (rawMove keys).y →
      jsSqrt ((rawMove keys).x * (rawMove keys).x + (rawMove keys).y * (rawMove keys).y)
          * jsSqrt ((rawMove keys).x * (rawMove keys).x + (rawMove keys).y * (rawMove keys).y)
          = (rawMove keys).x * (rawMove keys).x + (rawMove keys).y * (rawMove keys).y →
      0 < jsSqrt 1 →
      (update prand jsSqrt jsCos jsSin at2 p dt keys mouse bonus).1.isDashing = true ∧
      (update prand jsSqrt jsCos jsSin at2 p dt keys mouse bonus).1.dashCharges = 1 ∧
      (update prand jsSqrt jsCos jsSin at2 p dt keys mouse bonus).1.velocity.x
          * (update prand jsSqrt jsCos jsSin at2 p dt keys mouse bonus).1.velocity.x
        + (update prand jsSqrt jsCos jsSin at2 p dt keys mouse bonus).1.velocity.y
          * (update prand jsSqrt jsCos jsSin at2 p dt keys mouse bonus).1.velocity.y
        = dashSpeed * dashSpeed) ∧
    (∀ (prand : ℤ → ℤ → ℚ) (jsSqrt jsCos jsSin : ℚ → ℚ) (at2 : ℚ → ℚ → ℚ)
        (mouse : MouseStateQ) (bonus : ℚ) (dts : List ℚ) (p : PlayerState),
      (∀ d ∈ dts, 0 ≤ d) → p.isDashing = true → 0 < p.dashTimer → p.dashTimer ≤ dts.sum →
      (foldUpd prand jsSqrt jsCos jsSin at2 noKeys mouse bonus p dts).isDashing = false ∧
      (foldUpd prand jsSqrt jsCos jsSin at2 noKeys mouse bonus p dts).velocity = ⟨0, 0⟩) ∧
    (∀ (prand : ℤ → ℤ → ℚ) (jsSqrt jsCos jsSin : ℚ → ℚ) (at2 : ℚ → ℚ → ℚ)
        (mouse : MouseStateQ) (bonus : ℚ) (dts : List ℚ) (p : PlayerState),
      (∀ d ∈ dts, 0 ≤ d) → p.dashCharges = 1 → 0 ≤ p.dashRechargeTimer →
      p.dashRechargeTimer < dashRechargeTime →
      dashRechargeTime ≤ p.dashRechargeTimer + dts.sum →
      (foldUpd prand jsSqrt jsCos jsSin at2 noKeys mouse bonus p dts).dashCharges = 2) := by
  refine ⟨?_, ?_, ?_⟩
  · intro prand jsSqrt jsCos jsSin at2 p keys mouse bonus dt hnd hch hdb hsp hpos hsq hone
    exact dashTrigger_step prand jsSqrt jsCos jsSin at2 p keys mouse bonus dt
      hnd hch hdb hsp hpos hsq hone
  · intro prand jsSqrt jsCos jsSin at2 mouse bonus dts p hall h1 h2 h3
    exact foldUpd_noKeys_dashEnd prand jsSqrt jsCos jsSin at2 mouse bonus dts p hall h1 h2 h3
  · intro prand jsSqrt jsCos jsSin at2 mouse bonus dts p hall h1 h2 hlt h3
    exact foldUpd_noKeys_recharge prand jsSqrt jsCos jsSin at2 mouse bonus dts p hall h1 h2 hlt h3

/-- C6 witness: a concrete dash press (D + space), a concrete two-tick dash
expiry, and a concrete fifteen-tick recharge, discharging every hypothesis
of the lifecycle theorem. -/
theorem C6_dash_lifecycle_witness :
    ((update (fun _ _ => 1/2) (fun _ => 1) (fun _ => 0) (fun _ => 0) (fun _ _ => 0)
        ⟨⟨200, 200⟩, ⟨0, 0⟩, 0, 0, 0, false, 0, 2, 0, 0⟩ (1/10)
        ⟨false, false, false, true, false, true, false⟩ ⟨0, 0⟩ 0).1.isDashing = true ∧
      (update (fun _ _ => 1/2) (fun _ => 1) (fun _ => 0) (fun _ => 0) (fun _ _ => 0)
        ⟨⟨200, 200⟩, ⟨0, 0⟩, 0, 0, 0, false, 0, 2, 0, 0⟩ (1/10)
        ⟨false, false, false, true, false, true, false⟩ ⟨0, 0⟩ 0).1.dashCharges = 1) ∧
    ((List.replicate 2 ((1:ℚ)/10)).sum = 1/5 ∧
      (foldUpd (fun _ _ => 1/2) (fun _ => 1) (fun _ => 0) (fun _ => 0) (fun _ _ => 0)
        noKeys ⟨0, 0⟩ 0 ⟨⟨200, 200⟩, ⟨900, 0⟩, 0, 0, 0, true, 1/5, 1, 0, 1/5⟩
        (List.replicate 2 (1/10))).isDashing = false ∧
      (foldUpd (fun _ _ => 1/2) (fun _ => 1) (fun _ => 0) (fun _ => 0) (fun _ _ => 0)
        noKeys ⟨0, 0⟩ 0 ⟨⟨200, 200⟩, ⟨900, 0⟩, 0, 0, 0, true, 1/5, 1, 0, 1/5⟩
        (List.replicate 2 (1/10))).velocity = ⟨0, 0⟩) ∧
    ((List.replicate 15 ((1:ℚ)/10)).sum = 3/2 ∧
      (foldUpd (fun _ _ => 1/2) (fun _ => 1) (fun _ => 0) (fun _ => 0) (fun _ _ => 0)
        noKeys ⟨0, 0⟩ 0 ⟨⟨200, 200⟩, ⟨0, 0⟩, 0, 0, 0, false, 0, 1, 0, 0⟩
        (List.replicate 15 (1/10))).dashCharges = 2) := by
  have h := C6_dash_lifecycle
  have hsum2 : (List.replicate 2 ((1:ℚ)/10)).sum = 1/5 := by
    simp [List.sum_replicate]
    norm_num
  have hsum15 : (List.replicate 15 ((1:ℚ)/10)).sum = 3/2 := by
    simp [List.sum_replicate]
    norm_num
  have hmem2 : ∀ d ∈ List.replicate 2 ((1:ℚ)/10), 0 ≤ d := by
    intro d hd
    rw [List.eq_of_mem_replicate hd]
    norm_num
  have hmem15 : ∀ d ∈ List.replicate 15 ((1:ℚ)/10), 0 ≤ d := by
    intro d hd
    rw [List.eq_of_mem_replicate hd]
    norm_num
  have h1 := h.1 (fun _ _ => 1/2) (fun _ => 1) (fun _ => 0) (fun _ => 0) (fun _ _ => 0)
    ⟨⟨200, 200⟩, ⟨0, 0⟩, 0, 0, 0, false, 0, 2, 0, 0⟩
    ⟨false, false, false, true, false, true, false⟩ ⟨0, 0⟩ 0 (1/10)
    rfl rfl (by norm_num) rfl (by norm_num [rawMove]) (by norm_num [rawMove]) (by norm_num)
  have h2 := h.2.1 (fun _ _ => 1/2) (fun _ => 1) (fun _ => 0) (fun _ => 0) (fun _ _ => 0)
    ⟨0, 0⟩ 0 (List.replicate 2 (1/10)) ⟨⟨200, 200⟩, ⟨900, 0⟩, 0, 0, 0, true, 1/5, 1, 0, 1/5⟩
    hmem2 rfl (by norm_num) (by rw [hsum2])
  have h3 := h.2.2 (fun _ _ => 1/2) (fun _ => 1) (fun _ => 0) (fun _ => 0) (fun _ _ => 0)
    ⟨0, 0⟩ 0 (List.replicate 15 (1/10)) ⟨⟨200, 200⟩, ⟨0, 0⟩, 0, 0, 0, false, 0, 1, 0, 0⟩
    hmem15 rfl (by norm_num) (by norm_num [dashRechargeTime])
    (by rw [hsum15]; norm_num [dashRechargeTime])
  exact ⟨⟨h1.1, h1.2.1⟩, ⟨hsum2, h2.1, h2.2⟩, ⟨hsum15, h3⟩⟩

/-- C7: axis-separated collision.  For any tick whose resolved desired
velocity is the stored (dash) velocity — diagonal, both components
non-zero — if the X-axis candidate box collides and the Y-axis box (from the
unchanged X position) does not, the update zeroes `velocity.x`, keeps
`pos.x`, and still applies the full Y displacement with `velocity.y`
unchanged.  (The collision stage treats walking and dashing desired
velocities identically; the dashing case makes the desired velocity an
arbitrary stored vector.) -/
theorem C7_axis_sliding (prand : ℤ → ℤ → ℚ) (jsSqrt jsCos jsSin : ℚ → ℚ)
    (at2 : ℚ → ℚ → ℚ) (p : PlayerState) (dt : ℚ) (keys : InputKeys)
    (mouse : MouseStateQ) (bonus : ℚ)
    (hdash : p.isDashing = true) (hcont : ¬ p.dashTimer - dt ≤ 0)
    (hvx : p.velocity.x ≠ 0) (hvy : p.velocity.y ≠ 0)
    (hX : checkCollision prand (getBounds (p.pos.x + p.velocity.x * dt) p.pos.y) = true)
    (hY : checkCollision prand (getBounds p.pos.x (p.pos.y + p.velocity.y * dt)) = false) :
    (update prand jsSqrt jsCos jsSin at2 p dt keys mouse bonus).1.pos.x = p.pos.x ∧
    (update prand jsSqrt jsCos jsSin at2 p dt keys mouse bonus).1.pos.y
      = p.pos.y + p.velocity.y * dt ∧
    (update prand jsSqrt jsCos jsSin at2 p dt keys mouse bonus).1.velocity.x = 0 ∧
    (update prand jsSqrt jsCos jsSin at2 p dt keys mouse bonus).1.velocity.y
      = p.velocity.y := by
  have hcont2 : ¬ p.dashTimer ≤ dt := fun h => hcont (by linarith)
  simp [update, hdash, hcont2, resolveCollision, hX, hY]

theorem intRangeIncl_one (a : ℤ) : intRangeIncl a a = [a] := by
  unfold intRangeIncl
  rw [show a - a + 1 = 1 by ring, show Int.toNat 1 = 1 from rfl,
    show List.range 1 = [0] from rfl]
  simp

theorem intRangeIncl_two (a : ℤ) : intRangeIncl a (a + 1) = [a, a + 1] := by
  unfold intRangeIncl
  rw [show a + 1 - a + 1 = 2 by ring, show Int.toNat 2 = 2 from rfl,
    show List.range 2 = [0, 1] from rfl]
  simp

theorem tileHalf_95_0 : classifyTile (fun _ _ => 1/2) 95 0 = TileType.Grass := by
  norm_num [classifyTile, boundaryLimit, boundaryStart, noise, lerp, distSq, sqrtGT,
    sqrtLT, isRoadAt, biomeVal, jsMod, ratTrunc, worldRadiusChunks, chunkSize, abs_lt]

theorem tileHalf_95_1 : classifyTile (fun _ _ => 1/2) 95 1 = TileType.Grass := by
  norm_num [classifyTile, boundaryLimit, boundaryStart, noise, lerp, distSq, sqrtGT,
    sqrtLT, isRoadAt, biomeVal, jsMod, ratTrunc, worldRadiusChunks, chunkSize, abs_lt]

theorem tileHalf_96_0 : classifyTile (fun _ _ => 1/2) 96 0 = TileType.Cliff := by
  norm_num [classifyTile, boundaryLimit, boundaryStart, noise, lerp, distSq, sqrtGT,
    sqrtLT, isRoadAt, biomeVal, jsMod, ratTrunc, worldRadiusChunks, chunkSize, abs_lt]

theorem tileHalf_4_3 : classifyTile (fun _ _ => 1/2) 4 3 = TileType.Grass := by
  norm_num [classifyTile, boundaryLimit, boundaryStart, noise, lerp, distSq, sqrtGT,
    sqrtLT, isRoadAt, biomeVal, jsMod, ratTrunc, worldRadiusChunks, chunkSize, abs_lt]

theorem tileHalf_5_3 : classifyTile (fun _ _ => 1/2) 5 3 = TileType.Grass := by
  norm_num [classifyTile, boundaryLimit, boundaryStart, noise, lerp, distSq, sqrtGT,
    sqrtLT, isRoadAt, biomeVal, jsMod, ratTrunc, worldRadiusChunks, chunkSize, abs_lt]

theorem getTileAt_center64 (prand : ℤ → ℤ → ℚ) (x y : ℤ) :
    getTileAt prand ((x : ℚ) * 64 + 32) ((y : ℚ) * 64 + 32) = classifyTile prand x y := by
  rw [show ((x : ℚ) * 64 + 32) = (x : ℚ) * tileSize + tileSize / 2 by norm_num [tileSize],
    show ((y : ℚ) * 64 + 32) = (y : ℚ) * tileSize + tileSize / 2 by norm_num [tileSize]]
  exact getTileAt_center prand x y

theorem checkCollision_wallRect :
    checkCollision (fun _ _ => 1/2) ⟨6114, 16, 32, 32⟩ = true := by
  have hr : intRangeIncl 95 96 = [95, 96] := by
    rw [show (96 : ℤ) = 95 + 1 by norm_num, intRangeIncl_two]
  have h0 : intRangeIncl 0 0 = [0] := intRangeIncl_one 0
  norm_num [checkCollision, tileSize, hr, h0, getTileAt_center64,
    tileHalf_95_0, tileHalf_96_0, TILE_DEFS]

theorem checkCollision_freeRect :
    checkCollision (fun _ _ => 1/2) ⟨6084, 46, 32, 32⟩ = false := by
  have hr : intRangeIncl 0 1 = [0, 1] := by
    rw [show (1 : ℤ) = 0 + 1 by norm_num, intRangeIncl_two]
  have h95 : intRangeIncl 95 95 = [95] := intRangeIncl_one 95
  norm_num [checkCollision, tileSize, hr, h95, getTileAt_center64,
    tileHalf_95_0, tileHalf_95_1, TILE_DEFS]

/-- C7 witness: a dashing player at (6100, 32) next to the containment wall,
moving diagonally with velocity (300, 300) for a tick of `dt = 0.1`: the X
candidate box reaches the Cliff tile at (96, 0) and is blocked, the Y box
stays on Grass; the update keeps `pos.x`, applies the full Y displacement,
zeroes `velocity.x` and keeps `velocity.y`. -/
theorem C7_axis_sliding_witness :
    checkCollision (fun _ _ => 1/2) (getBounds ((6100 : ℚ) + 300 * (1/10)) 32) = true ∧
    checkCollision (fun _ _ => 1/2) (getBounds (6100 : ℚ) (32 + 300 * (1/10))) = false ∧
    (update (fun _ _ => 1/2) (fun _ => 0) (fun _ => 0) (fun _ => 0) (fun _ _ => 0)
        ⟨⟨6100, 32⟩, ⟨300, 300⟩, 0, 0, 0, true, 1/5, 0, 0, 0⟩ (1/10) noKeys
        ⟨0, 0⟩ 0).1.pos.x = 6100 ∧
    (update (fun _ _ => 1/2) (fun _ => 0) (fun _ => 0) (fun _ => 0) (fun _ _ => 0)
        ⟨⟨6100, 32⟩, ⟨300, 300⟩, 0, 0, 0, true, 1/5, 0, 0, 0⟩ (1/10) noKeys
        ⟨0, 0⟩ 0).1.pos.y = 62 ∧
    (update (fun _ _ => 1/2) (fun _ => 0) (fun _ => 0) (fun _ => 0) (fun _ _ => 0)
        ⟨⟨6100, 32⟩, ⟨300, 300⟩, 0, 0, 0, true, 1/5, 0, 0, 0⟩ (1/10) noKeys
        ⟨0, 0⟩ 0).1.velocity.x = 0 ∧
    (update (fun _ _ => 1/2) (fun _ => 0) (fun _ => 0) (fun _ => 0) (fun _ _ => 0)
        ⟨⟨6100, 32⟩, ⟨300, 300⟩, 0, 0, 0, true, 1/5, 0, 0, 0⟩ (1/10) noKeys
        ⟨0, 0⟩ 0).1.velocity.y = 300 := by
  have hX : checkCollision (fun _ _ => 1/2)
      (getBounds ((6100 : ℚ) + 300 * (1/10)) 32) = true := by
    rw [show getBounds ((6100 : ℚ) + 300 * (1/10)) 32 = ⟨6114, 16, 32, 32⟩ by
      norm_num [getBounds, playerSize]]
    exact checkCollision_wallRect
  have hY : checkCollision (fun _ _ => 1/2)
      (getBounds (6100 : ℚ) (32 + 300 * (1/10))) = false := by
    rw [show getBounds (6100 : ℚ) (32 + 300 * (1/10)) = ⟨6084, 46, 32, 32⟩ by
      norm_num [getBounds, playerSize]]
    exact checkCollision_freeRect
  have h := C7_axis_sliding (fun _ _ => 1/2) (fun _ => 0) (fun _ => 0) (fun _ => 0)
    (fun _ _ => 0) ⟨⟨6100, 32⟩, ⟨300, 300⟩, 0, 0, 0, true, 1/5, 0, 0, 0⟩ (1/10) noKeys
    ⟨0, 0⟩ 0 rfl (by norm_num) (by norm_num) (by norm_num) hX hY
  refine ⟨hX, hY, h.1, ?_, h.2.2.1, h.2.2.2⟩
  rw [h.2.1]
  norm_num

theorem foldProj_cons (prand : ℤ → ℤ → ℚ) (ps : List Projectile) (d : ℚ) (rest : List ℚ) :
    foldProj prand ps (d :: rest) = foldProj prand (projUpdate prand d ps) rest := rfl

theorem foldProj_empty (prand : ℤ → ℤ → ℚ) : ∀ dts : List ℚ, foldProj prand [] dts = [] := by
  intro dts
  induction dts with
  | nil => rfl
  | cons d rest ih =>
      rw [foldProj_cons]
      have : projUpdate prand d [] = [] := rfl
      rw [this]
      exact ih

theorem projUpdate_wall (prand : ℤ → ℤ → ℚ) (dt : ℚ) (p : Projectile)
    (h : isPassable prand (p.x + p.vx * dt) (p.y + p.vy * dt) = false) :
    projUpdate prand dt [p] = [] := by
  simp [projUpdate, stepProjectile, h]

theorem foldProj_single_expiry (prand : ℤ → ℤ → ℚ) :
    ∀ (dts : List ℚ) (p : Projectile), (∀ d ∈ dts, 0 ≤ d) → 0 < p.life →
      pathPassable prand p dts →
      (foldProj prand [p] dts = [] ↔ p.life ≤ dts.sum) := by
  intro dts
  induction dts with
  | nil =>
      intro p _ hlife _
      simp only [foldProj, List.foldl_nil, List.sum_nil]
      constructor
      · intro h
        exact absurd h (List.cons_ne_nil p [])
      · intro h
        exact absurd (lt_of_lt_of_le hlife h) (lt_irrefl 0)
  | cons d rest ih =>
      intro p hall hlife hpath
      obtain ⟨hpass, hrest⟩ := hpath
      have hd0 : 0 ≤ d := hall d (List.mem_cons_self d rest)
      have hq : (stepProjectile prand d p).life = p.life - d := by
        simp [stepProjectile, hpass]
      rw [foldProj_cons, List.sum_cons]
      by_cases hle : p.life - d ≤ 0
      · have hpu : projUpdate prand d [p] = [] := by
          simp only [projUpdate, List.map_cons, List.map_nil]
          rw [List.filter_cons]
          rw [if_neg (by simp [hq, hle])]
          rfl
        rw [hpu, foldProj_empty]
        have hsum : 0 ≤ rest.sum :=
          List.sum_nonneg fun x hx => hall x (List.mem_cons_of_mem d hx)
        constructor
        · intro _
          linarith
        · intro _
          rfl
      · have hpu : projUpdate prand d [p] = [stepProjectile prand d p] := by
          simp only [projUpdate, List.map_cons, List.map_nil]
          rw [List.filter_cons]
          rw [if_pos (by simp [hq, hle])]
          rfl
        rw [hpu]
        have := ih (stepProjectile prand d p)
          (fun x hx => hall x (List.mem_cons_of_mem d hx))
          (by rw [hq]; linarith) hrest
        rw [this, hq]
        constructor <;> intro h <;> linarith

/-- C9: projectile expiry.  (1) A projectile whose path never enters an
impassable tile is removed by the iterated updates exactly when the
accumulated `dt` reaches its remaining life (`maxLife = defaultLife = 2.0`
at spawn).  (2) A projectile whose integrated position lands on an
impassable tile is removed on that same tick, regardless of remaining
life: `life` is forced to 0 and the `life ≤ 0` sweep removes it. -/
theorem C9_projectile_expiry :
    (∀ (prand : ℤ → ℤ → ℚ) (dts : List ℚ) (p : Projectile),
      (∀ d ∈ dts, 0 ≤ d) → 0 < p.life → pathPassable prand p dts →
      (foldProj prand [p] dts = [] ↔ p.life ≤ dts.sum)) ∧
    (∀ (prand : ℤ → ℤ → ℚ) (dt : ℚ) (p : Projectile),
      isPassable prand (p.x + p.vx * dt) (p.y + p.vy * dt) = false →
      projUpdate prand dt [p] = []) := by
  constructor
  · intro prand dts p hall hlife hpath
    exact foldProj_single_expiry prand dts p hall hlife hpath
  · intro prand dt p h
    exact projUpdate_wall prand dt p h

/-- C9 witness: a projectile spawned with `life = maxLife = defaultLife = 2`
flying east over Grass expires exactly when the accumulated `dt` reaches 2;
a projectile flying into the Cliff at tile (96, 0) is removed that tick even
though its remaining life is 1.9. -/
theorem C9_projectile_expiry_witness :
    ((List.sum [(1 : ℚ), 1]) = 2 ∧ (0 : ℚ) < 2 ∧
      pathPassable (fun _ _ => 1/2) ⟨200, 200, 64, 0, 2, 2⟩ [1, 1] ∧
      foldProj (fun _ _ => 1/2) [⟨200, 200, 64, 0, 2, 2⟩] [1, 1] = []) ∧
    (isPassable (fun _ _ => 1/2) ((6000 : ℚ) + 1500 * (1/10)) ((32 : ℚ) + 0 * (1/10)) = false ∧
      (0 : ℚ) < 2 - 1/10 ∧
      projUpdate (fun _ _ => 1/2) (1/10) [⟨6000, 32, 1500, 0, 2, 2⟩] = []) := by
  have hp1 : isPassable (fun _ _ => (1/2 : ℚ)) 264 200 = true := by
    unfold isPassable
    rw [getTileAt_eq]
    rw [show worldToTile (264 : ℚ) = 4 by norm_num [worldToTile, tileSize],
      show worldToTile (200 : ℚ) = 3 by norm_num [worldToTile, tileSize]]
    rw [tileHalf_4_3]
    rfl
  have hp2 : isPassable (fun _ _ => (1/2 : ℚ)) 328 200 = true := by
    unfold isPassable
    rw [getTileAt_eq]
    rw [show worldToTile (328 : ℚ) = 5 by norm_num [worldToTile, tileSize],
      show worldToTile (200 : ℚ) = 3 by norm_num [worldToTile, tileSize]]
    rw [tileHalf_5_3]
    rfl
  have hwall : isPassable (fun _ _ => (1/2 : ℚ)) 6150 32 = false := by
    unfold isPassable
    rw [getTileAt_eq]
    rw [show worldToTile (6150 : ℚ) = 96 by norm_num [worldToTile, tileSize],
      show worldToTile (32 : ℚ) = 0 by norm_num [worldToTile, tileSize]]
    rw [tileHalf_96_0]
    rfl
  have hpath : pathPassable (fun _ _ => (1/2 : ℚ)) ⟨200, 200, 64, 0, 2, 2⟩ [1, 1] := by
    refine ⟨?_, ?_, trivial⟩
    · rw [show (200 : ℚ) + 64 * 1 = 264 by norm_num, show (200 : ℚ) + 0 * 1 = 200 by norm_num]
      exact hp1
    · show isPassable _ ((stepProjectile _ 1 _).x + (stepProjectile _ 1 _).vx * 1)
        ((stepProjectile _ 1 _).y + (stepProjectile _ 1 _).vy * 1) = true
      simp only [stepProjectile, hp1]
      norm_num
      exact hp2
  have hmem : ∀ d ∈ [(1 : ℚ), 1], 0 ≤ d := by
    intro d hd
    rcases List.mem_cons.mp hd with rfl | hd2
    · norm_num
    · rcases List.mem_cons.mp hd2 with rfl | hd3
      · norm_num
      · exact absurd hd3 (List.not_mem_nil d)
  have h := C9_projectile_expiry
  have hdone : foldProj (fun _ _ => (1/2 : ℚ)) [⟨200, 200, 64, 0, 2, 2⟩] [1, 1] = [] := by
    refine (h.1 (fun _ _ => 1/2) [1, 1] ⟨200, 200, 64, 0, 2, 2⟩ hmem (by norm_num) hpath).mpr ?_
    norm_num
  have hwall2 : isPassable (fun _ _ => (1/2 : ℚ)) ((6000 : ℚ) + 1500 * (1/10))
      ((32 : ℚ) + 0 * (1/10)) = false := by
    rw [show (6000 : ℚ) + 1500 * (1/10) = 6150 by norm_num,
      show (32 : ℚ) + 0 * (1/10) = 32 by norm_num]
    exact hwall
  refine ⟨⟨by norm_num, by norm_num, hpath, hdone⟩, hwall2, by norm_num, ?_⟩
  exact h.2 (fun _ _ => 1/2) (1/10) ⟨6000, 32, 1500, 0, 2, 2⟩ hwall2
